import Mathlib

/-!
# Verification of the trading-signals core

A shallow embedding of the repository's Technical Signal Engine:
the indicator library and signal aggregator (`signals.ts`), the
sentiment evaluator (`sentiment-api.ts`), and the alert condition
engine with its rate limiting (`telegram-bot.ts`, `supabase-alerts.ts`,
`alert-storage.ts`, and the cron alert routes).

Conventions:
* JavaScript numbers are embedded as exact rationals (`ℚ`).  All the
  arithmetic relevant to the verified claims is rational.
* `Math.round` is embedded as `jsRound` (round half toward +∞, as the
  ECMAScript function behaves), `toFixed(n)`-then-`Number` as rounding
  to `n` decimal places with the same tie rule.
* String rendering of numbers (template literals, `toFixed` used inside
  description strings) is abstracted by a `NumFormat` parameter: no
  claim depends on how a number is printed.
* `Math.sqrt` (used only by the Bollinger Bands indicator) is abstracted
  by a `ℚ → ℚ` parameter; no claim depends on its values.
* Optional JS parameters / possibly-absent data are `Option`.
-/

namespace TradingSignals

/-- The five signal levels of `SignalStrength` in `types`. -/
inductive SignalStrength where
  | strong_buy
  | buy
  | neutral
  | sell
  | strong_sell
deriving DecidableEq, Repr

/-- `IndicatorResult` record: `{name, value, signal, description}`. -/
structure IndicatorResult where
  name : String
  value : ℚ
  signal : SignalStrength
  description : String
deriving DecidableEq, Repr

/-- ECMAScript `Math.round`: round half toward positive infinity. -/
def jsRound (x : ℚ) : ℤ := ⌊x + 1/2⌋

/-- `Math.round(x * 100) / 100` — the library's two-decimal rounding. -/
def round2 (x : ℚ) : ℚ := (jsRound (x * 100) : ℚ) / 100

/-- `Math.round(x * 1000) / 1000` — three-decimal rounding (MACD value). -/
def round3 (x : ℚ) : ℚ := (jsRound (x * 1000) : ℚ) / 1000

/-- `Math.max(...arr)` on a nonempty array (the sources only apply it
under length guards; the `[]` case is junk). -/
def listMax : List ℚ → ℚ
  | [] => 0
  | x :: xs => xs.foldl max x

/-- `Math.min(...arr)` on a nonempty array. -/
def listMin : List ℚ → ℚ
  | [] => 0
  | x :: xs => xs.foldl min x

/-- `arr[arr.length - 1]` on a nonempty array (junk default otherwise). -/
def lastElem (l : List ℚ) : ℚ := l.getLast?.getD 0

/-- Abstraction of JavaScript number-to-string rendering: `toStr` for a
template literal occurrence, `toFixedStr d x` for `x.toFixed(d)`.  The
verified claims never inspect rendered numbers. -/
structure NumFormat where
  toStr : ℚ → String
  toFixedStr : ℕ → ℚ → String

/-- A trivial formatter, used to instantiate witnesses. -/
def fmtZero : NumFormat := ⟨fun _ => "", fun _ _ => ""⟩

/-- The threshold helper `getSignal(value, strongBuy, buy, sell,
strongSell, inverted)` from `signals.ts`. -/
def getSignal (value strongBuy buy sell strongSell : ℚ)
    (inverted : Bool := false) : SignalStrength :=
  if inverted then
    if value ≤ strongBuy then .strong_buy
    else if value ≤ buy then .buy
    else if value ≥ strongSell then .strong_sell
    else if value ≥ sell then .sell
    else .neutral
  else
    if value ≥ strongBuy then .strong_buy
    else if value ≥ buy then .buy
    else if value ≤ strongSell then .strong_sell
    else if value ≤ sell then .sell
    else .neutral

/-- `RSI.calculate` from `signals.ts`.  `changes` is
`prices.slice(1).map((price, i) => price - prices[i])`;
`recentChanges` is `changes.slice(-14)`. -/
def RSI_calculate (prices : List ℚ) : IndicatorResult :=
  if prices.length < 15 then
    ⟨"RSI", 50, .neutral, "Insufficient data"⟩
  else
    let period : ℕ := 14
    let changes := List.zipWith (· - ·) (prices.drop 1) prices
    let recentChanges := changes.drop (changes.length - period)
    let gains := recentChanges.filter (fun c => decide (0 < c))
    let losses := (recentChanges.filter (fun c => decide (c < 0))).map (fun c => |c|)
    let avgGain : ℚ := if 0 < gains.length then gains.sum / (period : ℚ) else 0
    let avgLoss : ℚ := if 0 < losses.length then losses.sum / (period : ℚ) else 0
    let rs : ℚ := if avgLoss = 0 then 100 else avgGain / avgLoss
    let rsi : ℚ := 100 - 100 / (1 + rs)
    let signal := getSignal rsi 0 30 70 80 true
    let description :=
      if rsi < 30 then "Oversold - potential buying opportunity"
      else if rsi > 70 then "Overbought - potential selling opportunity"
      else "Neutral momentum"
    ⟨"RSI", round2 rsi, signal, description⟩

/-- The running-mean-seeded EMA used by `MACD.calculate`: mean of the
first `period` entries, then `data[i]*k + ema*(1-k)` over the rest. -/
def calcEMA (data : List ℚ) (period : ℕ) : ℚ :=
  let k : ℚ := 2 / ((period : ℚ) + 1)
  let ema0 : ℚ := (data.take period).sum / (period : ℚ)
  (data.drop period).foldl (fun ema x => x * k + ema * (1 - k)) ema0

/-- `MACD.calculate` from `signals.ts`. -/
def MACD_calculate (prices : List ℚ) : IndicatorResult :=
  if prices.length < 26 then
    ⟨"MACD", 0, .neutral, "Insufficient data"⟩
  else
    let ema12 := calcEMA prices 12
    let ema26 := calcEMA prices 26
    let macdLine := ema12 - ema26
    let currentPrice := lastElem prices
    let macdPercent := macdLine / currentPrice * 100
    let signal := getSignal macdPercent 2 (1/2) (-1/2) (-2)
    let description :=
      if macdPercent > 1/2 then "Bullish momentum - MACD above signal"
      else if macdPercent < -1/2 then "Bearish momentum - MACD below signal"
      else "Consolidating"
    ⟨"MACD", round3 macdPercent, signal, description⟩

/-- `BollingerBands.calculate` from `signals.ts`; `sq` abstracts
`Math.sqrt`, which the claims never evaluate. -/
def BollingerBands_calculate (sq : ℚ → ℚ) (prices : List ℚ) : IndicatorResult :=
  if prices.length < 20 then
    ⟨"BB", 1/2, .neutral, "Insufficient data"⟩
  else
    let period : ℕ := 20
    let recentPrices := prices.drop (prices.length - period)
    let sma := recentPrices.sum / (period : ℚ)
    let squaredDiffs := recentPrices.map (fun p => (p - sma) ^ 2)
    let stdDev := sq (squaredDiffs.sum / (period : ℚ))
    let upperBand := sma + stdDev * 2
    let lowerBand := sma - stdDev * 2
    let currentPrice := lastElem prices
    let position := (currentPrice - lowerBand) / (upperBand - lowerBand)
    let signal := getSignal position 0 (1/5) (4/5) 1 true
    let description :=
      if position < 1/5 then "Near lower band - potential bounce"
      else if position > 4/5 then "Near upper band - potential pullback"
      else "Within normal range"
    ⟨"BB", round2 position, signal, description⟩

/-- `SMACrossover.calculate` from `signals.ts`.  `Math.floor(len / 3)`
and `Math.floor(len * 0.8)` agree with the natural-number divisions
`len / 3` and `4 * len / 5` for every series length. -/
def SMACrossover_calculate (prices : List ℚ) : IndicatorResult :=
  if prices.length < 200 then
    let shortPeriod := min 10 (prices.length / 3)
    let longPeriod := min 30 (4 * prices.length / 5)
    if prices.length < longPeriod + 5 then
      ⟨"SMA", 0, .neutral, "Insufficient data"⟩
    else
      let shortSMA := (prices.drop (prices.length - shortPeriod)).sum / (shortPeriod : ℚ)
      let longSMA := (prices.drop (prices.length - longPeriod)).sum / (longPeriod : ℚ)
      let diff := (shortSMA - longSMA) / longSMA * 100
      let signal := getSignal diff 5 1 (-1) (-5)
      ⟨"SMA", round2 diff, signal,
        if diff > 0 then "Short-term bullish trend" else "Short-term bearish trend"⟩
  else
    let sma50 := (prices.drop (prices.length - 50)).sum / 50
    let sma200 := (prices.drop (prices.length - 200)).sum / 200
    let diff := (sma50 - sma200) / sma200 * 100
    let signal := getSignal diff 10 2 (-2) (-10)
    let description :=
      if diff > 2 then "Golden cross territory - bullish"
      else if diff < -2 then "Death cross territory - bearish"
      else "SMAs converging"
    ⟨"SMA", round2 diff, signal, description⟩

/-- `VolumeAnalysis.calculate` from `signals.ts`.  The price delta
`prices[len-1] - prices[len-2]` is `NaN` in JS when either index is out
of range; `NaN > 0` is false, hence the `Option`-valued delta with
`isUp = false` when absent. -/
def VolumeAnalysis_calculate (prices : List ℚ) (volumes : Option (List ℚ)) :
    IndicatorResult :=
  match volumes with
  | none => ⟨"VOL", 1, .neutral, "Volume data unavailable"⟩
  | some vols =>
    if vols.length < 20 then
      ⟨"VOL", 1, .neutral, "Volume data unavailable"⟩
    else
      -- volumes.slice(-20, -1): the 19 entries preceding the last
      let avgVolume := ((vols.drop (vols.length - 20)).take 19).sum / 19
      let currentVolume := lastElem vols
      let ratioVal := currentVolume / avgVolume
      let priceDelta? : Option ℚ :=
        match prices[prices.length - 1]?, prices[prices.length - 2]? with
        | some a, some b => if prices.length ≥ 2 then some (a - b) else none
        | _, _ => none
      let isUp : Bool := match priceDelta? with
        | some d => decide (d > 0)
        | none => false
      if ratioVal > 3/2 ∧ isUp then
        ⟨"VOL", round2 ratioVal, .strong_buy, "High volume breakout"⟩
      else if ratioVal > 3/2 ∧ ¬isUp then
        ⟨"VOL", round2 ratioVal, .strong_sell, "High volume selloff"⟩
      else if ratioVal > 6/5 ∧ isUp then
        ⟨"VOL", round2 ratioVal, .buy, "Above average volume on uptrend"⟩
      else if ratioVal > 6/5 ∧ ¬isUp then
        ⟨"VOL", round2 ratioVal, .sell, "Above average volume on downtrend"⟩
      else
        ⟨"VOL", round2 ratioVal, .neutral, "Normal volume levels"⟩

/-- `Momentum.calculate` from `signals.ts`.  At `len = 10` exactly the
JS code reads `prices[-1]` (undefined) and produces a `NaN` momentum:
every threshold comparison is false, so the result is neutral with the
default description (the `NaN` value is embedded as `0`; no claim reads
it). -/
def Momentum_calculate (prices : List ℚ) : IndicatorResult :=
  if prices.length < 10 then
    ⟨"MOM", 0, .neutral, "Insufficient data"⟩
  else
    if prices.length = 10 then ⟨"MOM", 0, .neutral, "Momentum neutral"⟩
    else
      let currentPrice := lastElem prices
      let previousPrice := (prices[prices.length - 11]?).getD 0
      let momentum := (currentPrice - previousPrice) / previousPrice * 100
      let signal := getSignal momentum 10 3 (-3) (-10)
      let description :=
        if momentum > 3 then "Strong upward momentum"
        else if momentum < -3 then "Strong downward momentum"
        else "Momentum neutral"
      ⟨"MOM", round2 momentum, signal, description⟩

/-- `Stochastic.calculate` from `signals.ts`. -/
def Stochastic_calculate (prices : List ℚ) : IndicatorResult :=
  if prices.length < 14 then
    ⟨"STOCH", 50, .neutral, "Insufficient data"⟩
  else
    let period : ℕ := 14
    let recentPrices := prices.drop (prices.length - period)
    let high := listMax recentPrices
    let low := listMin recentPrices
    let close := lastElem recentPrices
    let stochK : ℚ := if high = low then 50 else (close - low) / (high - low) * 100
    let signal := getSignal stochK 0 20 80 100 true
    let description :=
      if stochK < 20 then "Oversold condition"
      else if stochK > 80 then "Overbought condition"
      else "Normal range"
    ⟨"STOCH", round2 stochK, signal, description⟩

/-- `ATR.calculate` from `signals.ts` (simplified TR over close-to-close
moves; always a neutral signal). -/
def ATR_calculate (prices : List ℚ) : IndicatorResult :=
  if prices.length < 15 then
    ⟨"ATR", 0, .neutral, "Insufficient data"⟩
  else
    let period : ℕ := 14
    let trueRanges := List.zipWith (fun a b => |a - b|) (prices.drop 1) prices
    let recentTR := trueRanges.drop (trueRanges.length - period)
    let atr := recentTR.sum / (period : ℚ)
    let atrPercent := atr / lastElem prices * 100
    let description :=
      if atrPercent > 5 then "High volatility - use caution"
      else if atrPercent < 1 then "Low volatility - potential breakout coming"
      else "Normal volatility"
    ⟨"ATR", round2 atrPercent, .neutral, description⟩

/-- Wilder smoothing (`rma`) from `DMI.calculate`: running mean for the
first `period` entries, then `(prev*(period-1) + x) / period`. -/
def rma (arr : List ℚ) (period : ℕ) : List ℚ :=
  (arr.foldl
    (fun (st : ℕ × ℚ × List ℚ) x =>
      let i := st.1
      let sum := st.2.1
      let acc := st.2.2
      if i < period then
        (i + 1, sum + x, (sum + x) / ((i : ℚ) + 1) :: acc)
      else
        (i + 1, sum, (acc.headD 0 * ((period : ℚ) - 1) + x) / (period : ℚ) :: acc))
    (0, 0, [])).2.2.reverse

/-- `arr[arr.length - 2]` (junk default; the sources guard the length). -/
def secondLastElem (l : List ℚ) : ℚ := (l[l.length - 2]?).getD 0

/-- `DMI.calculate` from `signals.ts`.  In the source, `high` and `low`
are both `prices[i]`, so every raw TR is `0 || 0.0001 = 0.0001`. -/
def DMI_calculate (fmt : NumFormat) (prices : List ℚ) : IndicatorResult :=
  let len : ℕ := 15
  let adxSmoothing : ℕ := 34
  if prices.length < max len adxSmoothing + 5 then
    ⟨"DMI", 0, .neutral, "Insufficient data"⟩
  else
    let pairs := List.zipWith (fun cur prev => (cur, prev)) (prices.drop 1) prices
    let tr := pairs.map (fun p =>
      let trValue := |p.1 - p.1|
      if trValue = 0 then 1/10000 else trValue)
    let plusDM := pairs.map (fun p =>
      let upMove := p.1 - p.2
      let downMove := p.2 - p.1
      if upMove > downMove ∧ upMove > 0 then upMove else 0)
    let minusDM := pairs.map (fun p =>
      let upMove := p.1 - p.2
      let downMove := p.2 - p.1
      if downMove > upMove ∧ downMove > 0 then downMove else 0)
    let smoothTR := rma tr len
    let smoothPlusDM := rma plusDM len
    let smoothMinusDM := rma minusDM len
    let plusDI := List.zipWith (fun t d => if t > 0 then d / t * 100 else 0)
      smoothTR smoothPlusDM
    let minusDI := List.zipWith (fun t d => if t > 0 then d / t * 100 else 0)
      smoothTR smoothMinusDM
    let dx := List.zipWith (fun p m => if p + m > 0 then |p - m| / (p + m) * 100 else 0)
      plusDI minusDI
    let adxArr := rma dx adxSmoothing
    let pDI := lastElem plusDI
    let mDI := lastElem minusDI
    let adx := lastElem adxArr
    let prevPlusDI := secondLastElem plusDI
    let prevMinusDI := secondLastElem minusDI
    let dmiCrossUp := prevPlusDI ≤ prevMinusDI ∧ pDI > mDI
    let dmiCrossDown := prevPlusDI ≥ prevMinusDI ∧ pDI < mDI
    let dmiLong := (pDI > adx ∧ adx > 20 ∧ pDI > 20) ∨ (dmiCrossUp ∧ adx > 40)
      ∨ (adx > 30 ∧ mDI < pDI ∧ pDI > 25)
    let dmiShort := (dmiCrossDown ∧ adx > 20) ∨ (adx > 32 ∧ mDI > pDI)
      ∨ (mDI > adx ∧ adx > 40 ∧ mDI > 25)
    if dmiCrossUp ∧ adx > 40 then
      ⟨"DMI", (jsRound adx : ℚ), .strong_buy, "Strong bullish crossover with high ADX"⟩
    else if dmiLong then
      ⟨"DMI", (jsRound adx : ℚ), .buy, "Bullish trend - +DI dominant"⟩
    else if dmiCrossDown ∧ adx > 40 then
      ⟨"DMI", (jsRound adx : ℚ), .strong_sell, "Strong bearish crossover with high ADX"⟩
    else if dmiShort then
      ⟨"DMI", (jsRound adx : ℚ), .sell, "Bearish trend - -DI dominant"⟩
    else if adx < 20 then
      ⟨"DMI", (jsRound adx : ℚ), .neutral, "Weak trend - ADX below 20"⟩
    else
      ⟨"DMI", (jsRound adx : ℚ), .neutral,
        "+DI: " ++ fmt.toFixedStr 1 pDI ++ ", -DI: " ++ fmt.toFixedStr 1 mDI
          ++ ", ADX: " ++ fmt.toFixedStr 1 adx⟩

/-- The element-seeded running EMA used by `STC.calculate` and
`EMACrossover.calculate`: `result[0] = data[0]`. -/
def emaList (data : List ℚ) (period : ℕ) : List ℚ :=
  let k : ℚ := 2 / ((period : ℚ) + 1)
  match data with
  | [] => []
  | x :: xs =>
    (xs.foldl (fun (st : ℚ × List ℚ) y =>
      let v := y * k + st.1 * (1 - k)
      (v, v :: st.2)) (x, [x])).2.reverse

/-- The guarded stochastic pass of `STC.calculate`: 50 for the first
`period - 1` indices, then range position, carrying the previous value
(`|| 50`) on a flat window. -/
def stcStochPass (data : List ℚ) (period : ℕ) : List ℚ :=
  (data.foldl
    (fun (st : ℕ × List ℚ) x =>
      let i := st.1
      let acc := st.2
      if i < period - 1 then
        (i + 1, (50 : ℚ) :: acc)
      else
        let window := (data.drop (i + 1 - period)).take period
        let low := listMin window
        let high := listMax window
        let range := high - low
        let v : ℚ :=
          if range > 0 then (x - low) / range * 100
          else if acc.headD 0 = 0 then 50 else acc.headD 0
        (i + 1, v :: acc))
    (0, [])).2.reverse

/-- The factor-weighted smoothing pass of `STC.calculate`:
`out[i] = out[i-1] + factor * (in[i] - out[i-1])`. -/
def stcSmoothPass (data : List ℚ) (factor : ℚ) : List ℚ :=
  match data with
  | [] => []
  | x :: xs =>
    (xs.foldl (fun (st : ℚ × List ℚ) y =>
      let v := st.1 + factor * (y - st.1)
      (v, v :: st.2)) (x, [x])).2.reverse

/-- `arr[arr.length - 3]` (junk default; the sources guard the length). -/
def thirdLastElem (l : List ℚ) : ℚ := (l[l.length - 3]?).getD 0

/-- `STC.calculate` from `signals.ts`. -/
def STC_calculate (fmt : NumFormat) (prices : List ℚ) : IndicatorResult :=
  let stcLength : ℕ := 14
  let slowLength : ℕ := 60
  let factor : ℚ := 3/2
  if prices.length < slowLength + stcLength then
    ⟨"STC", 50, .neutral, "Insufficient data"⟩
  else
    let fastEMA := emaList prices 25
    let slowEMA := emaList prices 60
    let macdLine := List.zipWith (· - ·) fastEMA slowEMA
    let stoch1 := stcStochPass macdLine stcLength
    let smooth1 := stcSmoothPass stoch1 factor
    let stoch2 := stcStochPass smooth1 stcLength
    let stc := stcSmoothPass stoch2 factor
    let currentSTC := lastElem stc
    let prevSTC := secondLastElem stc
    let prev2STC := thirdLastElem stc
    let turningUp := prev2STC ≥ prevSTC ∧ prevSTC ≤ currentSTC ∧ currentSTC < 60
    let turningDown := prev2STC ≤ prevSTC ∧ prevSTC ≥ currentSTC ∧ currentSTC > 40
    if currentSTC < 25 then
      ⟨"STC", (jsRound currentSTC : ℚ), .strong_buy, "Oversold - potential reversal up"⟩
    else if turningUp then
      ⟨"STC", (jsRound currentSTC : ℚ), .buy, "STC turning up from low"⟩
    else if currentSTC > 75 then
      ⟨"STC", (jsRound currentSTC : ℚ), .strong_sell, "Overbought - potential reversal down"⟩
    else if turningDown then
      ⟨"STC", (jsRound currentSTC : ℚ), .sell, "STC turning down from high"⟩
    else
      ⟨"STC", (jsRound currentSTC : ℚ), .neutral,
        "STC at " ++ fmt.toFixedStr 1 currentSTC⟩

/-- `Aroon.calculate` from `signals.ts`.  The scan keeps the *last*
index attaining the extreme (`>=` / `<=` updates). -/
def Aroon_calculate (_fmt : NumFormat) (prices : List ℚ) : IndicatorResult :=
  let length : ℕ := 25
  if prices.length < length + 1 then
    ⟨"Aroon", 0, .neutral, "Insufficient data"⟩
  else
    let recent := prices.drop (prices.length - (length + 1))
    let highestIdx : ℕ :=
      (recent.enum.foldl
        (fun (best : ℕ × ℚ) p => if p.2 ≥ best.2 then p else best)
        (0, recent.headD 0)).1
    let lowestIdx : ℕ :=
      (recent.enum.foldl
        (fun (best : ℕ × ℚ) p => if p.2 ≤ best.2 then p else best)
        (0, recent.headD 0)).1
    let aroonUp : ℚ :=
      ((length : ℚ) - ((recent.length : ℚ) - 1 - (highestIdx : ℚ))) / (length : ℚ) * 100
    let aroonDown : ℚ :=
      ((length : ℚ) - ((recent.length : ℚ) - 1 - (lowestIdx : ℚ))) / (length : ℚ) * 100
    let aroonOsc := aroonUp - aroonDown
    if aroonUp > 70 ∧ aroonDown < 30 then
      ⟨"Aroon", (jsRound aroonOsc : ℚ), .strong_buy, "Strong uptrend - Aroon Up dominant"⟩
    else if aroonUp > aroonDown ∧ aroonUp > 50 then
      ⟨"Aroon", (jsRound aroonOsc : ℚ), .buy, "Uptrend forming"⟩
    else if aroonDown > 70 ∧ aroonUp < 30 then
      ⟨"Aroon", (jsRound aroonOsc : ℚ), .strong_sell, "Strong downtrend - Aroon Down dominant"⟩
    else if aroonDown > aroonUp ∧ aroonDown > 50 then
      ⟨"Aroon", (jsRound aroonOsc : ℚ), .sell, "Downtrend forming"⟩
    else
      ⟨"Aroon", (jsRound aroonOsc : ℚ), .neutral, "Consolidation - no clear trend"⟩

/-- The ATR series of `SuperTrend.calculate` (seeded by running means up
to index `period - 2`, Wilder-smoothed after). -/
def atrSeries (tr : List ℚ) (period : ℕ) : List ℚ :=
  (tr.foldl
    (fun (st : ℕ × ℚ × List ℚ) x =>
      let i := st.1
      let sum := st.2.1
      let acc := st.2.2
      if i < period - 1 then
        (i + 1, sum + x, (sum + x) / ((i : ℚ) + 1) :: acc)
      else
        (i + 1, sum + x, (acc.headD 0 * ((period : ℚ) - 1) + x) / (period : ℚ) :: acc))
    (0, 0, [])).2.2.reverse

/-- `SuperTrend.calculate` from `signals.ts`. -/
def SuperTrend_calculate (fmt : NumFormat) (prices : List ℚ) : IndicatorResult :=
  let atrPeriod : ℕ := 10
  let factor : ℚ := 3
  if prices.length < atrPeriod + 5 then
    ⟨"SuperTrend", 0, .neutral, "Insufficient data"⟩
  else
    let tr := List.zipWith (fun a b => |a - b|) (prices.drop 1) prices
    let atr := atrSeries tr atrPeriod
    let step := fun (st : ℤ × ℚ) (i : ℕ) =>
      let atrVal := atr.getD (i - 1) 0 * factor
      let p := prices.getD i 0
      if p > st.2 then ((1 : ℤ), p - atrVal) else ((-1 : ℤ), p + atrVal)
    let final := (List.range' atrPeriod (prices.length - atrPeriod)).foldl step
      (1, prices.getD atrPeriod 0)
    let direction := final.1
    let superTrend := final.2
    let currentPrice := lastElem prices
    let percentFromST := (currentPrice - superTrend) / superTrend * 100
    if direction > 0 then
      ⟨"SuperTrend", (direction : ℚ),
        if percentFromST > 5 then .strong_buy else .buy,
        "Bullish - price " ++ fmt.toFixedStr 1 percentFromST ++ "% above SuperTrend"⟩
    else
      ⟨"SuperTrend", (direction : ℚ),
        if percentFromST < -5 then .strong_sell else .sell,
        "Bearish - price " ++ fmt.toFixedStr 1 |percentFromST| ++ "% below SuperTrend"⟩

/-- `EMACrossover.calculate` from `signals.ts`. -/
def EMACrossover_calculate (fmt : NumFormat) (prices : List ℚ) : IndicatorResult :=
  if prices.length < 25 then
    ⟨"EMA Cross", 0, .neutral, "Insufficient data"⟩
  else
    let ema9 := emaList prices 9
    let ema21 := emaList prices 21
    let current9 := lastElem ema9
    let current21 := lastElem ema21
    let prev9 := secondLastElem ema9
    let prev21 := secondLastElem ema21
    let diff := (current9 - current21) / current21 * 100
    let crossUp := prev9 ≤ prev21 ∧ current9 > current21
    let crossDown := prev9 ≥ prev21 ∧ current9 < current21
    if crossUp then
      ⟨"EMA Cross", round2 diff, .strong_buy, "Bullish crossover - EMA9 crossed above EMA21"⟩
    else if crossDown then
      ⟨"EMA Cross", round2 diff, .strong_sell, "Bearish crossover - EMA9 crossed below EMA21"⟩
    else if diff > 2 then
      ⟨"EMA Cross", round2 diff, .buy, "Bullish - EMA9 well above EMA21"⟩
    else if diff < -2 then
      ⟨"EMA Cross", round2 diff, .sell, "Bearish - EMA9 well below EMA21"⟩
    else
      ⟨"EMA Cross", round2 diff, .neutral,
        "EMA9 " ++ (if diff ≥ 0 then "above" else "below") ++ " EMA21 by "
          ++ fmt.toFixedStr 2 |diff| ++ "%"⟩

/-- `WilliamsR.calculate` from `signals.ts`. -/
def WilliamsR_calculate (fmt : NumFormat) (prices : List ℚ) : IndicatorResult :=
  let period : ℕ := 14
  if prices.length < period then
    ⟨"Williams %R", -50, .neutral, "Insufficient data"⟩
  else
    let recent := prices.drop (prices.length - period)
    let high := listMax recent
    let low := listMin recent
    let current := lastElem prices
    let wr : ℚ := if high ≠ low then (high - current) / (high - low) * (-100) else -50
    if wr > -20 then
      ⟨"Williams %R", (jsRound wr : ℚ), .sell, "Overbought (above -20) - potential pullback"⟩
    else if wr < -80 then
      ⟨"Williams %R", (jsRound wr : ℚ), .buy, "Oversold (below -80) - potential bounce"⟩
    else if wr > -40 then
      ⟨"Williams %R", (jsRound wr : ℚ), .neutral, "Upper neutral zone"⟩
    else if wr < -60 then
      ⟨"Williams %R", (jsRound wr : ℚ), .neutral, "Lower neutral zone"⟩
    else
      ⟨"Williams %R", (jsRound wr : ℚ), .neutral, "W%R at " ++ fmt.toFixedStr 1 wr⟩

/-- `CCI.calculate` from `signals.ts` (`0.015 = 3/200`). -/
def CCI_calculate (fmt : NumFormat) (prices : List ℚ) : IndicatorResult :=
  let period : ℕ := 20
  if prices.length < period then
    ⟨"CCI", 0, .neutral, "Insufficient data"⟩
  else
    let recent := prices.drop (prices.length - period)
    let sma := recent.sum / (period : ℚ)
    let meanDev := (recent.map (fun p => |p - sma|)).sum / (period : ℚ)
    let cci : ℚ := if meanDev > 0 then (lastElem recent - sma) / (3/200 * meanDev) else 0
    if cci > 200 then
      ⟨"CCI", (jsRound cci : ℚ), .strong_sell, "Extremely overbought (>200)"⟩
    else if cci > 100 then
      ⟨"CCI", (jsRound cci : ℚ), .sell, "Overbought (>100)"⟩
    else if cci < -200 then
      ⟨"CCI", (jsRound cci : ℚ), .strong_buy, "Extremely oversold (<-200)"⟩
    else if cci < -100 then
      ⟨"CCI", (jsRound cci : ℚ), .buy, "Oversold (<-100)"⟩
    else
      ⟨"CCI", (jsRound cci : ℚ), .neutral, "CCI at " ++ fmt.toFixedStr 1 cci⟩

/-- `ROC.calculate` from `signals.ts`. -/
def ROC_calculate (fmt : NumFormat) (prices : List ℚ) : IndicatorResult :=
  let period : ℕ := 12
  if prices.length < period + 1 then
    ⟨"ROC", 0, .neutral, "Insufficient data"⟩
  else
    let current := lastElem prices
    let past := (prices[prices.length - 1 - period]?).getD 0
    let roc := (current - past) / past * 100
    if roc > 10 then
      ⟨"ROC", round2 roc, .strong_buy, "Strong momentum up"⟩
    else if roc > 3 then
      ⟨"ROC", round2 roc, .buy, "Positive momentum"⟩
    else if roc < -10 then
      ⟨"ROC", round2 roc, .strong_sell, "Strong momentum down"⟩
    else if roc < -3 then
      ⟨"ROC", round2 roc, .sell, "Negative momentum"⟩
    else
      ⟨"ROC", round2 roc, .neutral,
        (if roc ≥ 0 then "+" else "") ++ fmt.toFixedStr 2 roc ++ "% over 12 periods"⟩

/-- `VWAPDeviation.calculate` from `signals.ts` (falls back to a plain
mean when no parallel volume series is given). -/
def VWAPDeviation_calculate (fmt : NumFormat) (prices : List ℚ)
    (volumes : Option (List ℚ)) : IndicatorResult :=
  if prices.length < 20 then
    ⟨"VWAP Dev", 0, .neutral, "Insufficient data"⟩
  else
    let vwap : ℚ :=
      match volumes with
      | some vols =>
        if vols.length = prices.length then
          (List.zipWith (· * ·) prices vols).sum / vols.sum
        else
          prices.sum / (prices.length : ℚ)
      | none => prices.sum / (prices.length : ℚ)
    let currentPrice := lastElem prices
    let deviation := (currentPrice - vwap) / vwap * 100
    if deviation > 5 then
      ⟨"VWAP Dev", round2 deviation, .sell, "Price far above VWAP - potential pullback"⟩
    else if deviation > 2 then
      ⟨"VWAP Dev", round2 deviation, .neutral, "Price above VWAP - bullish bias"⟩
    else if deviation < -5 then
      ⟨"VWAP Dev", round2 deviation, .buy, "Price far below VWAP - potential bounce"⟩
    else if deviation < -2 then
      ⟨"VWAP Dev", round2 deviation, .neutral, "Price below VWAP - bearish bias"⟩
    else
      ⟨"VWAP Dev", round2 deviation, .neutral,
        "Price " ++ (if deviation ≥ 0 then "above" else "below") ++ " VWAP by "
          ++ fmt.toFixedStr 2 |deviation| ++ "%"⟩

/-- The `Indicator` record of `types` (id, display metadata, default
enable flag, and the compute function). -/
structure Indicator where
  id : String
  name : String
  shortName : String
  description : String
  enabled : Bool
  calculate : List ℚ → Option (List ℚ) → IndicatorResult

/-- `RSI` indicator record from `signals.ts`. -/
def RSI : Indicator :=
  ⟨"rsi", "Relative Strength Index", "RSI",
    "Measures the speed and magnitude of price changes. Values below 30 indicate oversold, above 70 indicate overbought.",
    true, fun prices _ => RSI_calculate prices⟩

/-- `MACD` indicator record from `signals.ts`. -/
def MACD : Indicator :=
  ⟨"macd", "Moving Average Convergence Divergence", "MACD",
    "Shows the relationship between two EMAs. Positive histogram suggests bullish momentum.",
    true, fun prices _ => MACD_calculate prices⟩

/-- `BollingerBands` indicator record from `signals.ts`. -/
def BollingerBands (sq : ℚ → ℚ) : Indicator :=
  ⟨"bollinger", "Bollinger Bands", "BB",
    "Measures volatility. Price near lower band may indicate oversold, near upper band may indicate overbought.",
    true, fun prices _ => BollingerBands_calculate sq prices⟩

/-- `SMACrossover` indicator record from `signals.ts`. -/
def SMACrossover : Indicator :=
  ⟨"sma_cross", "SMA Crossover (50/200)", "SMA",
    "Golden cross (50 above 200) is bullish, death cross is bearish.",
    true, fun prices _ => SMACrossover_calculate prices⟩

/-- `VolumeAnalysis` indicator record from `signals.ts`. -/
def VolumeAnalysis : Indicator :=
  ⟨"volume", "Volume Analysis", "VOL",
    "Compares current volume to average. High volume confirms price moves.",
    true, fun prices volumes => VolumeAnalysis_calculate prices volumes⟩

/-- `Momentum` indicator record from `signals.ts` (disabled by default). -/
def Momentum : Indicator :=
  ⟨"momentum", "Price Momentum", "MOM",
    "Measures the rate of price change over a period.",
    false, fun prices _ => Momentum_calculate prices⟩

/-- `Stochastic` indicator record from `signals.ts`. -/
def Stochastic : Indicator :=
  ⟨"stochastic", "Stochastic Oscillator", "STOCH",
    "Compares closing price to price range. Below 20 is oversold, above 80 is overbought.",
    false, fun prices _ => Stochastic_calculate prices⟩

/-- `ATR` indicator record from `signals.ts`. -/
def ATR : Indicator :=
  ⟨"atr", "Average True Range", "ATR",
    "Measures market volatility. Higher values indicate more volatile conditions.",
    false, fun prices _ => ATR_calculate prices⟩

/-- `DMI` indicator record from `signals.ts`. -/
def DMI (fmt : NumFormat) : Indicator :=
  ⟨"dmi", "DMI", "DMI",
    "Directional Movement Index - measures trend direction and strength using +DI, -DI, and ADX",
    false, fun prices _ => DMI_calculate fmt prices⟩

/-- `STC` indicator record from `signals.ts`. -/
def STC (fmt : NumFormat) : Indicator :=
  ⟨"stc", "Schaff Trend Cycle", "STC",
    "Combines MACD with Stochastic for cycle identification. Below 25 = oversold, above 75 = overbought",
    false, fun prices _ => STC_calculate fmt prices⟩

/-- `Aroon` indicator record from `signals.ts`. -/
def Aroon (fmt : NumFormat) : Indicator :=
  ⟨"aroon", "Aroon", "AROON",
    "Identifies trend changes and strength. Aroon Up > Aroon Down = bullish",
    false, fun prices _ => Aroon_calculate fmt prices⟩

/-- `SuperTrend` indicator record from `signals.ts`. -/
def SuperTrend (fmt : NumFormat) : Indicator :=
  ⟨"supertrend", "SuperTrend", "ST",
    "Trend-following indicator combining ATR with price action",
    false, fun prices _ => SuperTrend_calculate fmt prices⟩

/-- `EMACrossover` indicator record from `signals.ts`. -/
def EMACrossover (fmt : NumFormat) : Indicator :=
  ⟨"ema_cross", "EMA Crossover", "EMA",
    "Exponential Moving Average 9/21 crossover for trend direction",
    false, fun prices _ => EMACrossover_calculate fmt prices⟩

/-- `WilliamsR` indicator record from `signals.ts`. -/
def WilliamsR (fmt : NumFormat) : Indicator :=
  ⟨"williams_r", "Williams %R", "W%R",
    "Momentum indicator showing overbought/oversold. Below -80 = oversold, above -20 = overbought",
    false, fun prices _ => WilliamsR_calculate fmt prices⟩

/-- `CCI` indicator record from `signals.ts`. -/
def CCI (fmt : NumFormat) : Indicator :=
  ⟨"cci", "CCI", "CCI",
    "Measures price deviation from average. Above +100 = overbought, below -100 = oversold",
    false, fun prices _ => CCI_calculate fmt prices⟩

/-- `ROC` indicator record from `signals.ts`. -/
def ROC (fmt : NumFormat) : Indicator :=
  ⟨"roc", "Rate of Change", "ROC",
    "Measures percentage price change over a period",
    false, fun prices _ => ROC_calculate fmt prices⟩

/-- `VWAPDeviation` indicator record from `signals.ts`. -/
def VWAPDeviation (fmt : NumFormat) : Indicator :=
  ⟨"vwap", "VWAP Deviation", "VWAP",
    "Price deviation from Volume Weighted Average Price",
    false, fun prices volumes => VWAPDeviation_calculate fmt prices volumes⟩

/-- `ALL_INDICATORS` from `signals.ts`, in source order, parameterized
by the `Math.sqrt` and number-formatting abstractions. -/
def ALL_INDICATORS (sq : ℚ → ℚ) (fmt : NumFormat) : List Indicator :=
  [RSI, MACD, BollingerBands sq, SMACrossover, VolumeAnalysis, Momentum,
   Stochastic, ATR, DMI fmt, STC fmt, Aroon fmt, SuperTrend fmt,
   EMACrossover fmt, WilliamsR fmt, CCI fmt, ROC fmt, VWAPDeviation fmt]

/-- The `CombinedSignal` record of `types`. -/
structure CombinedSignal where
  overall : SignalStrength
  score : ℤ
  bullishCount : ℕ
  bearishCount : ℕ
  neutralCount : ℕ
  indicators : List IndicatorResult
deriving DecidableEq, Repr

/-- The `signalWeights` table of `calculateCombinedSignal`. -/
def signalWeight : SignalStrength → ℤ
  | .strong_buy => 2
  | .buy => 1
  | .neutral => 0
  | .sell => -1
  | .strong_sell => -2

/-- The `totalScore` accumulated by `calculateCombinedSignal`'s loop. -/
def totalScore (results : List IndicatorResult) : ℤ :=
  (results.map (fun r => signalWeight r.signal)).sum

/-- The `bullishCount` tally of `calculateCombinedSignal`'s loop. -/
def bullishTally (results : List IndicatorResult) : ℕ :=
  (results.filter (fun r => r.signal = .strong_buy ∨ r.signal = .buy)).length

/-- The `bearishCount` tally of `calculateCombinedSignal`'s loop. -/
def bearishTally (results : List IndicatorResult) : ℕ :=
  (results.filter (fun r => r.signal = .strong_sell ∨ r.signal = .sell)).length

/-- The `neutralCount` tally of `calculateCombinedSignal`'s loop (the
`else` branch: neither bullish nor bearish). -/
def neutralTally (results : List IndicatorResult) : ℕ :=
  (results.filter (fun r =>
    ¬(r.signal = .strong_buy ∨ r.signal = .buy)
      ∧ ¬(r.signal = .strong_sell ∨ r.signal = .sell))).length

/-- `normalizedScore` of `calculateCombinedSignal`:
`maxScore > 0 ? totalScore / maxScore * 100 : 0` with
`maxScore = count * 2`. -/
def normalizedScore (results : List IndicatorResult) : ℚ :=
  let maxScore : ℤ := (results.length : ℤ) * 2
  if maxScore > 0 then (totalScore results : ℚ) / (maxScore : ℚ) * 100 else 0

/-- The overall-classification ladder of `calculateCombinedSignal`
(applied to the *unrounded* normalized score). -/
def classifyScore (s : ℚ) : SignalStrength :=
  if s ≥ 50 then .strong_buy
  else if s ≥ 20 then .buy
  else if s ≤ -50 then .strong_sell
  else if s ≤ -20 then .sell
  else .neutral

/-- The aggregation step of `calculateCombinedSignal` over already
computed indicator results (everything after `results` is built). -/
def combineResults (results : List IndicatorResult) : CombinedSignal :=
  ⟨classifyScore (normalizedScore results),
   jsRound (normalizedScore results),
   bullishTally results, bearishTally results, neutralTally results,
   results⟩

/-- `calculateCombinedSignal(prices, volumes?, enabledIndicators?)` from
`signals.ts`.  A passed list (even an empty one — JS `[]` is truthy) is
used as-is; `undefined` falls back to the enabled subset of
`ALL_INDICATORS`. -/
def calculateCombinedSignal (sq : ℚ → ℚ) (fmt : NumFormat)
    (prices : List ℚ) (volumes : Option (List ℚ))
    (enabledIndicators : Option (List Indicator)) : CombinedSignal :=
  let indicators :=
    match enabledIndicators with
    | some l => l
    | none => (ALL_INDICATORS sq fmt).filter (fun i => i.enabled)
  combineResults (indicators.map (fun i => i.calculate prices volumes))

/-- `calculateOverallSignal(fearGreed, fundingRate, longShortRatio)`
from `sentiment-api.ts`, taking the numeric field each parameter is read
for (`value`, `ratePercent`, `ratio`), `none` for a `null` input.  In
the source the normalization `Math.round(score / factors * factors)`
divides and re-multiplies by the same nonzero factor count, which is the
identity on the integer `score` in exact arithmetic. -/
def calculateOverallSignal (fearGreed fundingRate longShortRatio : Option ℚ) :
    String × ℤ :=
  let fgScore : ℤ :=
    match fearGreed with
    | none => 0
    | some v =>
      if v ≤ 20 then 40 else if v ≤ 35 then 20
      else if v ≥ 80 then -40 else if v ≥ 65 then -20 else 0
  let frScore : ℤ :=
    match fundingRate with
    | none => 0
    | some r =>
      if r ≤ -5/100 then 30 else if r ≤ -2/100 then 15
      else if r ≥ 1/10 then -30 else if r ≥ 5/100 then -15 else 0
  let lsScore : ℤ :=
    match longShortRatio with
    | none => 0
    | some r =>
      if r ≤ 1/2 then 30 else if r ≤ 4/5 then 15
      else if r ≥ 3 then -30 else if r ≥ 5/2 then -15 else 0
  let score : ℤ := fgScore + frScore + lsScore
  let factors : ℕ := (if fearGreed.isSome then 1 else 0)
    + (if fundingRate.isSome then 1 else 0)
    + (if longShortRatio.isSome then 1 else 0)
  let normalized : ℤ :=
    if factors > 0 then jsRound ((score : ℚ) / (factors : ℚ) * (factors : ℚ)) else 0
  let signal : String :=
    if normalized ≥ 50 then "strong_buy"
    else if normalized ≥ 25 then "buy"
    else if normalized ≤ -50 then "strong_sell"
    else if normalized ≤ -25 then "sell"
    else "neutral"
  (signal, normalized)

/-- Alert types: `'BUY' | 'SELL' | 'CAUTION' | 'INFO'`. -/
inductive AlertType where
  | BUY
  | SELL
  | CAUTION
  | INFO
deriving DecidableEq, Repr

/-- The result shape of both alert evaluators:
`{shouldSend, alertType, reason}`. -/
structure AlertCheck where
  shouldSend : Bool
  alertType : AlertType
  reason : String
deriving DecidableEq, Repr

/-- The metric-snapshot parameter of both alert evaluators; absent
upstream data is `none`. -/
structure AlertData where
  fearGreed : Option ℚ
  fundingRate : Option ℚ
  longShort : Option ℚ
  priceChange24h : Option ℚ
deriving DecidableEq, Repr

/-- The `AlertConfig` interface of `telegram-bot.ts` (the local variant
with hardcoded thresholds); `aiAnalysisFlag` embeds its `aiAnalysis`
field. -/
structure AlertConfigLocal where
  enabled : Bool
  fearGreedExtreme : Bool
  fundingRateExtreme : Bool
  longShortExtreme : Bool
  priceChange : Bool
  aiAnalysisFlag : Bool
  minTimeBetweenAlerts : ℚ
deriving DecidableEq, Repr

/-- `DEFAULT_CONFIG` from `telegram-bot.ts`. -/
def DEFAULT_CONFIG : AlertConfigLocal :=
  ⟨true, true, true, true, true, true, 60⟩

/-- One early-return guard of the evaluators: fires the given outcome
when the metric is present, its enable flag is set, and the comparison
holds. -/
def alertGuard (flag : Bool) (metric : Option ℚ) (cond : ℚ → Bool)
    (outcome : ℚ → AlertCheck) : Option AlertCheck :=
  match metric with
  | some v => if flag ∧ cond v then some (outcome v) else none
  | none => none

/-- `shouldSendAlert(config, data)` from `telegram-bot.ts`: the local
alert evaluator, a sequence of early returns with hardcoded thresholds.
Note its high-funding branch returns type `SELL`. -/
def shouldSendAlert (fmt : NumFormat) (config : AlertConfigLocal)
    (data : AlertData) : AlertCheck :=
  if ¬config.enabled then
    ⟨false, .INFO, "Alerts disabled"⟩
  else
    (alertGuard config.fearGreedExtreme data.fearGreed (fun v => v ≤ 15)
        (fun v => ⟨true, .BUY, "Extreme Fear (F&G: " ++ fmt.toStr v ++ ")"⟩)
      <|> alertGuard config.fearGreedExtreme data.fearGreed (fun v => v ≥ 85)
        (fun v => ⟨true, .SELL, "Extreme Greed (F&G: " ++ fmt.toStr v ++ ")"⟩)
      <|> alertGuard config.fundingRateExtreme data.fundingRate (fun v => v ≤ -5/100)
        (fun v => ⟨true, .BUY, "Negative Funding (" ++ fmt.toFixedStr 4 v ++ "%)"⟩)
      <|> alertGuard config.fundingRateExtreme data.fundingRate (fun v => v ≥ 1/10)
        (fun v => ⟨true, .SELL, "High Funding (" ++ fmt.toFixedStr 4 v ++ "%)"⟩)
      <|> alertGuard config.longShortExtreme data.longShort (fun v => v ≤ 1/2)
        (fun v => ⟨true, .BUY, "Crowded Shorts (L/S: " ++ fmt.toFixedStr 2 v ++ ")"⟩)
      <|> alertGuard config.longShortExtreme data.longShort (fun v => v ≥ 7/2)
        (fun v => ⟨true, .CAUTION, "Crowded Longs (L/S: " ++ fmt.toFixedStr 2 v ++ ")"⟩)
      <|> alertGuard config.priceChange data.priceChange24h (fun v => v ≤ -10)
        (fun v => ⟨true, .BUY, "Large Drop (" ++ fmt.toFixedStr 2 v ++ "%)"⟩)
      <|> alertGuard config.priceChange data.priceChange24h (fun v => v ≥ 15)
        (fun v => ⟨true, .CAUTION, "Large Rally (" ++ fmt.toFixedStr 2 v ++ "%)"⟩)
      ).getD ⟨false, .INFO, "No extreme conditions"⟩

/-- The config parameter of `checkAlertConditions` in the
`telegram-bot.ts` variant with per-condition thresholds (the fields also
live on the stored `AlertConfig` of `supabase-alerts.ts`). -/
structure CheckAlertConfig where
  fear_greed_extreme : Bool
  fear_greed_buy_threshold : ℚ
  fear_greed_sell_threshold : ℚ
  funding_rate_extreme : Bool
  funding_rate_high_threshold : ℚ
  funding_rate_low_threshold : ℚ
  long_short_extreme : Bool
  long_short_high_threshold : ℚ
  long_short_low_threshold : ℚ
  price_change_enabled : Bool
  price_change_threshold : ℚ
deriving DecidableEq, Repr

/-- `checkAlertConditions(config, data)`: the four prioritized rules
(fear/greed, funding rate, long/short ratio, 24h price change) evaluated
as a sequence of early returns. -/
def checkAlertConditions (fmt : NumFormat) (config : CheckAlertConfig)
    (data : AlertData) : AlertCheck :=
  (alertGuard config.fear_greed_extreme data.fearGreed
      (fun v => v ≤ config.fear_greed_buy_threshold)
      (fun v => ⟨true, .BUY, "Extreme Fear detected (F&G: " ++ fmt.toStr v ++ ")"⟩)
    <|> alertGuard config.fear_greed_extreme data.fearGreed
      (fun v => v ≥ config.fear_greed_sell_threshold)
      (fun v => ⟨true, .SELL, "Extreme Greed detected (F&G: " ++ fmt.toStr v ++ ")"⟩)
    <|> alertGuard config.funding_rate_extreme data.fundingRate
      (fun v => v ≤ config.funding_rate_low_threshold)
      (fun v => ⟨true, .BUY,
        "Negative Funding Rate (" ++ fmt.toFixedStr 4 v ++ "%) - Shorts paying"⟩)
    <|> alertGuard config.funding_rate_extreme data.fundingRate
      (fun v => v ≥ config.funding_rate_high_threshold)
      (fun v => ⟨true, .CAUTION,
        "High Funding Rate (" ++ fmt.toFixedStr 4 v ++ "%) - Overleveraged longs"⟩)
    <|> alertGuard config.long_short_extreme data.longShort
      (fun v => v ≤ config.long_short_low_threshold)
      (fun v => ⟨true, .BUY,
        "Crowded Shorts (L/S: " ++ fmt.toFixedStr 2 v ++ ") - Squeeze potential"⟩)
    <|> alertGuard config.long_short_extreme data.longShort
      (fun v => v ≥ config.long_short_high_threshold)
      (fun v => ⟨true, .CAUTION,
        "Crowded Longs (L/S: " ++ fmt.toFixedStr 2 v ++ ") - Liquidation risk"⟩)
    <|> alertGuard config.price_change_enabled data.priceChange24h
      (fun v => v ≤ -config.price_change_threshold)
      (fun v => ⟨true, .BUY, "Large Price Drop (" ++ fmt.toFixedStr 2 v ++ "%)"⟩)
    <|> alertGuard config.price_change_enabled data.priceChange24h
      (fun v => v ≥ config.price_change_threshold * (3/2))
      (fun v => ⟨true, .CAUTION,
        "Large Price Rally (" ++ fmt.toFixedStr 2 v ++ "%) - Consider taking profits"⟩)
    ).getD ⟨false, .INFO, "No extreme conditions"⟩

/-- `v ≤ threshold` on a possibly-absent metric (absent never matches). -/
def metricLe (m : Option ℚ) (th : ℚ) : Bool :=
  match m with
  | some v => decide (v ≤ th)
  | none => false

/-- `v ≥ threshold` on a possibly-absent metric (absent never matches). -/
def metricGe (m : Option ℚ) (th : ℚ) : Bool :=
  match m with
  | some v => decide (v ≥ th)
  | none => false

/-- Modelled from the spec: the ordered `(condition, outcome)` rule list
of §4.4 — fear/greed (BUY on low / SELL on high), funding rate (BUY on
low / CAUTION on high), long/short ratio (BUY on low / CAUTION on high),
price change (BUY on large drop / CAUTION on a rally at a larger
multiplier of the same threshold), each gated by its enable flag and
the metric's presence. -/
def specAlertRules (config : CheckAlertConfig) (d : AlertData) :
    List (Bool × AlertType) :=
  [(config.fear_greed_extreme && metricLe d.fearGreed config.fear_greed_buy_threshold,
      .BUY),
   (config.fear_greed_extreme && metricGe d.fearGreed config.fear_greed_sell_threshold,
      .SELL),
   (config.funding_rate_extreme && metricLe d.fundingRate config.funding_rate_low_threshold,
      .BUY),
   (config.funding_rate_extreme && metricGe d.fundingRate config.funding_rate_high_threshold,
      .CAUTION),
   (config.long_short_extreme && metricLe d.longShort config.long_short_low_threshold,
      .BUY),
   (config.long_short_extreme && metricGe d.longShort config.long_short_high_threshold,
      .CAUTION),
   (config.price_change_enabled && metricLe d.priceChange24h (-config.price_change_threshold),
      .BUY),
   (config.price_change_enabled && metricGe d.priceChange24h (config.price_change_threshold * (3/2)),
      .CAUTION)]

/-- Modelled from the spec: first-match evaluation of an ordered rule
list — only the first rule whose condition holds determines the result;
if none match the result is `shouldSend = false` with type `INFO`. -/
def firstMatch : List (Bool × AlertType) → Bool × AlertType
  | [] => (false, .INFO)
  | (c, t) :: rest => if c then (true, t) else firstMatch rest

/-- The hardcoded rule list of `shouldSendAlert` (`telegram-bot.ts`),
in source order: note the high-funding outcome is `SELL` there. -/
def localAlertRules (config : AlertConfigLocal) (d : AlertData) :
    List (Bool × AlertType) :=
  [(config.fearGreedExtreme && metricLe d.fearGreed 15, .BUY),
   (config.fearGreedExtreme && metricGe d.fearGreed 85, .SELL),
   (config.fundingRateExtreme && metricLe d.fundingRate (-5/100), .BUY),
   (config.fundingRateExtreme && metricGe d.fundingRate (1/10), .SELL),
   (config.longShortExtreme && metricLe d.longShort (1/2), .BUY),
   (config.longShortExtreme && metricGe d.longShort (7/2), .CAUTION),
   (config.priceChange && metricLe d.priceChange24h (-10), .BUY),
   (config.priceChange && metricGe d.priceChange24h 15, .CAUTION)]

/-- The stored `AlertConfig` row of `supabase-alerts.ts` (the fields the
alert pipeline reads; `id` and the timestamp columns are presentation
only and omitted). -/
structure AlertConfigDb where
  user_id : String
  telegram_enabled : Bool
  telegram_chat_id : Option String
  fear_greed_extreme : Bool
  fear_greed_buy_threshold : ℚ
  fear_greed_sell_threshold : ℚ
  funding_rate_extreme : Bool
  funding_rate_high_threshold : ℚ
  funding_rate_low_threshold : ℚ
  long_short_extreme : Bool
  long_short_high_threshold : ℚ
  long_short_low_threshold : ℚ
  price_change_enabled : Bool
  price_change_threshold : ℚ
  ai_analysis_enabled : Bool
  ai_model : String
  min_minutes_between_alerts : ℚ
deriving DecidableEq, Repr

/-- The structural projection by which the cron route passes the stored
config to `checkAlertConditions`. -/
def AlertConfigDb.toCheckConfig (c : AlertConfigDb) : CheckAlertConfig :=
  ⟨c.fear_greed_extreme, c.fear_greed_buy_threshold, c.fear_greed_sell_threshold,
   c.funding_rate_extreme, c.funding_rate_high_threshold, c.funding_rate_low_threshold,
   c.long_short_extreme, c.long_short_high_threshold, c.long_short_low_threshold,
   c.price_change_enabled, c.price_change_threshold⟩

/-- An `AlertHistory` row of `supabase-alerts.ts`; `created_at` is the
epoch-milliseconds insertion time set by the store, `long_short_value`
embeds the `long_short_ratio` column. -/
structure AlertHistoryRow where
  user_id : String
  alert_type : AlertType
  trigger_reason : String
  fear_greed_value : Option ℚ
  funding_rate : Option ℚ
  long_short_value : Option ℚ
  btc_price : Option ℚ
  btc_change_24h : Option ℚ
  ai_analysis : Option String
  ai_model_used : Option String
  telegram_sent : Bool
  telegram_message_id : Option String
  telegram_error : Option String
  created_at : ℚ
deriving DecidableEq, Repr

/-- `getLastAlertTime(userId)` from `supabase-alerts.ts`: the greatest
`created_at` among the user's rows with `telegram_sent = true` (the
query orders descending and takes one). -/
def getLastAlertTime (userId : String) (history : List AlertHistoryRow) : Option ℚ :=
  ((history.filter (fun r => r.user_id = userId ∧ r.telegram_sent)).map
    (fun r => r.created_at)).max?

/-- `canSendAlert(userId, minMinutesBetween)` from `supabase-alerts.ts`,
with the current clock passed explicitly. -/
def canSendAlert (userId : String) (minMinutesBetween : ℚ) (now : ℚ)
    (history : List AlertHistoryRow) : Bool :=
  match getLastAlertTime userId history with
  | none => true
  | some t => decide ((now - t) / (1000 * 60) ≥ minMinutesBetween)

/-- The result shape of `sendTelegramMessage` in the variant used by the
cron route: `{success, messageId?, error?}`. -/
structure DeliveryResult where
  success : Bool
  messageId : Option String
  error : Option String
deriving DecidableEq, Repr

/-- The early-return outcomes of the Supabase-backed cron route
(`api/alerts/check`, `GET`). -/
inductive CronOutcome where
  | telegramDisabled
  | noChatId
  | rateLimited
  | noConditions
  | fired (check : AlertCheck) (delivered : Bool)
deriving DecidableEq, Repr

/-- Whether a cron outcome fired an alert. -/
def CronOutcome.fires : CronOutcome → Bool
  | .fired _ _ => true
  | _ => false

/-- The Supabase-backed cron route (`api/alerts/check` `GET`) as a pure
step over the alert store: the external effects — the fetched sentiment
snapshot (`data`, `btcPrice`), the optional AI text, and the Telegram
delivery result — enter as parameters; the returned list is the new
alert history.  The route operates as user `"default"`.  (The market
snapshot written to the separate snapshots table does not interact with
alert history and is not modelled.) -/
def alertCheckCron (fmt : NumFormat) (config : AlertConfigDb)
    (envChatId : Option String) (data : AlertData) (btcPrice : Option ℚ)
    (aiAnalysis : Option String) (delivery : DeliveryResult) (now : ℚ)
    (history : List AlertHistoryRow) : CronOutcome × List AlertHistoryRow :=
  if ¬config.telegram_enabled then (.telegramDisabled, history)
  else
    match config.telegram_chat_id <|> envChatId with
    | none => (.noChatId, history)
    | some _ =>
      if ¬canSendAlert "default" config.min_minutes_between_alerts now history then
        (.rateLimited, history)
      else
        let check := checkAlertConditions fmt config.toCheckConfig data
        if ¬check.shouldSend then (.noConditions, history)
        else
          let row : AlertHistoryRow :=
            ⟨"default", check.alertType, check.reason,
             data.fearGreed, data.fundingRate, data.longShort,
             btcPrice, data.priceChange24h,
             aiAnalysis,
             (if config.ai_analysis_enabled then some config.ai_model else none),
             delivery.success, delivery.messageId, delivery.error, now⟩
          (.fired check delivery.success, history ++ [row])

/-- An `AlertHistory` entry of `alert-storage.ts`
(`{timestamp, alertType, reason, sent}`). -/
structure MemAlertRow where
  timestamp : ℚ
  alertType : AlertType
  reason : String
  sent : Bool
deriving DecidableEq, Repr

/-- The module-level mutable state of `alert-storage.ts`:
`lastAlertTime` (initially 0) and the in-memory history. -/
structure MemAlertState where
  lastAlertTime : ℚ
  alertHistory : List MemAlertRow
deriving DecidableEq, Repr

/-- `canSendAlert(minMinutesBetween)` from `alert-storage.ts`. -/
def canSendAlertMem (st : MemAlertState) (minMinutesBetween : ℚ) (now : ℚ) : Bool :=
  decide (now - st.lastAlertTime ≥ minMinutesBetween * 60 * 1000)

/-- `addAlertToHistory(alert)` from `alert-storage.ts`: unshift, keeping
at most 100 entries. -/
def addAlertToHistoryMem (st : MemAlertState) (row : MemAlertRow) : MemAlertState :=
  ⟨st.lastAlertTime, (row :: st.alertHistory).take 100⟩

/-- The early-return outcomes of the in-memory cron route
(the `alert-storage.ts`-backed `GET`). -/
inductive CronOutcomeMem where
  | alertsDisabled
  | noChatId
  | tooSoon
  | noConditions
  | fired (check : AlertCheck) (sent : Bool)
deriving DecidableEq, Repr

/-- The in-memory cron route as a pure step over `alert-storage.ts`
state: on a fired alert it records the send time and appends to history
*only when delivery succeeded* (`if (sent) { setLastAlertTime(...);
addAlertToHistory(...) }`). -/
def alertCheckCronMem (fmt : NumFormat) (config : AlertConfigLocal)
    (envChatId : Option String) (data : AlertData) (sent : Bool) (now : ℚ)
    (st : MemAlertState) : CronOutcomeMem × MemAlertState :=
  if ¬config.enabled then (.alertsDisabled, st)
  else
    match envChatId with
    | none => (.noChatId, st)
    | some _ =>
      if ¬canSendAlertMem st config.minTimeBetweenAlerts now then (.tooSoon, st)
      else
        let check := shouldSendAlert fmt config data
        if ¬check.shouldSend then (.noConditions, st)
        else if sent then
          (.fired check true,
            addAlertToHistoryMem ⟨now, st.alertHistory⟩
              ⟨now, check.alertType, check.reason, true⟩)
        else
          (.fired check false, st)

/-- 16 `buy` alongside 25 `neutral` results: normalized score
`1600/82 ≈ 19.51`, reported (rounded) score 20, classified `neutral`. -/
def boundaryResultsBuy : List IndicatorResult :=
  List.replicate 16 ⟨"b", 0, .buy, ""⟩ ++ List.replicate 25 ⟨"n", 0, .neutral, ""⟩

/-- The mirrored bearish configuration: 16 `sell` with 25 `neutral`. -/
def boundaryResultsSell : List IndicatorResult :=
  List.replicate 16 ⟨"s", 0, .sell, ""⟩ ++ List.replicate 25 ⟨"n", 0, .neutral, ""⟩

/-- A concrete stored alert config used to instantiate witnesses
(the defaults of `getDefaultConfig` with telegram enabled). -/
def witnessConfigDb : AlertConfigDb :=
  ⟨"default", true, some "chat", true, 15, 85, true, 1/10, -5/100, true, 7/2,
    1/2, true, 10, false, "llama-3.3-70b", 60⟩

/-- A concrete metric snapshot with extreme fear only. -/
def witnessData : AlertData := ⟨some 10, none, none, none⟩

/-- Whether an in-memory cron outcome fired an alert. -/
def CronOutcomeMem.fires : CronOutcomeMem → Bool
  | .fired _ _ => true
  | _ => false

/-- The per-indicator insufficiency threshold documented by each
`calculate` guard: below this price-history length the indicator
answers its insufficient-data result.  For `SMACrossover` the data
guard `len < min(10, ⌊len/3⌋)`-window form `len < min(30, ⌊0.8·len⌋)+5`
holds exactly when `len < 21`; for `DMI` the guard is
`len < max(15, 34) + 5 = 39`. -/
def minHistory : String → ℕ
  | "rsi" => 15
  | "macd" => 26
  | "bollinger" => 20
  | "sma_cross" => 21
  | "volume" => 20
  | "momentum" => 10
  | "stochastic" => 14
  | "atr" => 15
  | "dmi" => 39
  | "stc" => 74
  | "aroon" => 26
  | "supertrend" => 15
  | "ema_cross" => 25
  | "williams_r" => 14
  | "cci" => 20
  | "roc" => 13
  | "vwap" => 20
  | _ => 0

/-! ## Supporting lemmas -/

lemma foldl_max_all_eq {c : ℚ} : ∀ {l : List ℚ}, (∀ x ∈ l, x = c) →
    l.foldl max c = c
  | [], _ => rfl
  | y :: t, h => by
    have hy : y = c := h y (by simp)
    have ht : ∀ x ∈ t, x = c := fun x hx => h x (by simp [hx])
    simp only [List.foldl_cons, hy, max_self]
    exact foldl_max_all_eq ht

lemma foldl_min_all_eq {c : ℚ} : ∀ {l : List ℚ}, (∀ x ∈ l, x = c) →
    l.foldl min c = c
  | [], _ => rfl
  | y :: t, h => by
    have hy : y = c := h y (by simp)
    have ht : ∀ x ∈ t, x = c := fun x hx => h x (by simp [hx])
    simp only [List.foldl_cons, hy, min_self]
    exact foldl_min_all_eq ht

lemma listMax_all_eq {l : List ℚ} {c : ℚ} (hne : l ≠ [])
    (h : ∀ x ∈ l, x = c) : listMax l = c := by
  cases l with
  | nil => exact absurd rfl hne
  | cons x xs =>
    have hx : x = c := h x (by simp)
    have hxs : ∀ y ∈ xs, y = c := fun y hy => h y (by simp [hy])
    simpa [listMax, hx] using foldl_max_all_eq hxs

lemma listMin_all_eq {l : List ℚ} {c : ℚ} (hne : l ≠ [])
    (h : ∀ x ∈ l, x = c) : listMin l = c := by
  cases l with
  | nil => exact absurd rfl hne
  | cons x xs =>
    have hx : x = c := h x (by simp)
    have hxs : ∀ y ∈ xs, y = c := fun y hy => h y (by simp [hy])
    simpa [listMin, hx] using foldl_min_all_eq hxs

lemma lastElem_all_eq {l : List ℚ} {c : ℚ} (hne : l ≠ [])
    (h : ∀ x ∈ l, x = c) : lastElem l = c := by
  rw [lastElem, List.getLast?_eq_getLast l hne]
  exact h _ (List.getLast_mem hne)

/-! ## Claim theorems -/

/-- C9 (counterexample): the sentiment evaluator does **not** use the
aggregator's `±20` cutoffs.  With only fear/greed present at value 30,
the overall score is 20 — by the claimed cutoffs (`score ≥ 20 → buy`)
the signal would be `buy`, but `calculateOverallSignal` returns
`neutral` (its buy band starts at 25). -/
theorem sentiment_cutoffs_cex :
    calculateOverallSignal (some 30) none none = ("neutral", 20) ∧
      "neutral" ≠ "buy" := by
  refine ⟨?_, by decide⟩
  norm_num [calculateOverallSignal, jsRound, Int.floor_eq_iff]

/-- C9 (amended): the sentiment evaluator's overall score maps to its
classification through the cutoffs `≥50 → strong_buy`, `≥25 → buy`,
`≤−50 → strong_sell`, `≤−25 → sell`, `neutral` otherwise — the buy/sell
bands sit at ±25, not at the aggregator's ±20. -/
theorem sentiment_cutoffs_amended (fg fr ls : Option ℚ) :
    (50 ≤ (calculateOverallSignal fg fr ls).2 →
      (calculateOverallSignal fg fr ls).1 = "strong_buy") ∧
    (25 ≤ (calculateOverallSignal fg fr ls).2 → (calculateOverallSignal fg fr ls).2 < 50 →
      (calculateOverallSignal fg fr ls).1 = "buy") ∧
    ((calculateOverallSignal fg fr ls).2 ≤ -50 →
      (calculateOverallSignal fg fr ls).1 = "strong_sell") ∧
    (-50 < (calculateOverallSignal fg fr ls).2 → (calculateOverallSignal fg fr ls).2 ≤ -25 →
      (calculateOverallSignal fg fr ls).1 = "sell") ∧
    (-25 < (calculateOverallSignal fg fr ls).2 → (calculateOverallSignal fg fr ls).2 < 25 →
      (calculateOverallSignal fg fr ls).1 = "neutral") := by
  have hs : (calculateOverallSignal fg fr ls).1 =
      (if (calculateOverallSignal fg fr ls).2 ≥ 50 then "strong_buy"
       else if (calculateOverallSignal fg fr ls).2 ≥ 25 then "buy"
       else if (calculateOverallSignal fg fr ls).2 ≤ -50 then "strong_sell"
       else if (calculateOverallSignal fg fr ls).2 ≤ -25 then "sell"
       else "neutral") := rfl
  generalize (calculateOverallSignal fg fr ls).2 = n at hs ⊢
  rw [hs]
  refine ⟨?_, ?_, ?_, ?_, ?_⟩ <;> intros <;> split_ifs <;> first | rfl | omega

/-- C9 (witness): at fear/greed 10 alone the score is 40 and the signal
is `buy` under the ±25 bands. -/
theorem sentiment_cutoffs_amended_witness :
    (calculateOverallSignal (some 10) none none).1 = "buy" := by
  have h2 : (calculateOverallSignal (some 10) none none).2 = 40 := by
    norm_num [calculateOverallSignal, jsRound, Int.floor_eq_iff]
  exact (sentiment_cutoffs_amended (some 10) none none).2.1
    (by rw [h2]; norm_num) (by rw [h2]; norm_num)

/-- C5: with zero indicators (an explicitly passed empty selection) the
aggregator returns score 0, overall `neutral`, all tallies 0 and an
empty breakdown — it never divides by the zero indicator count. -/
theorem aggregator_empty_safe (sq : ℚ → ℚ) (fmt : NumFormat)
    (prices : List ℚ) (volumes : Option (List ℚ)) :
    calculateCombinedSignal sq fmt prices volumes (some []) =
      ⟨.neutral, 0, 0, 0, 0, []⟩ := by
  norm_num [calculateCombinedSignal, combineResults, normalizedScore, totalScore,
    bullishTally, bearishTally, neutralTally, classifyScore, jsRound,
    Int.floor_eq_iff]

lemma totalScore_all_strong_buy : ∀ {l : List IndicatorResult},
    (∀ r ∈ l, r.signal = SignalStrength.strong_buy) →
    totalScore l = 2 * (l.length : ℤ)
  | [], _ => rfl
  | a :: t, h => by
    have ha : a.signal = SignalStrength.strong_buy := h a (by simp)
    have ht : ∀ r ∈ t, r.signal = SignalStrength.strong_buy :=
      fun r hr => h r (by simp [hr])
    have := totalScore_all_strong_buy ht
    simp only [totalScore, List.map_cons, List.sum_cons] at this ⊢
    rw [ha, this]
    simp [signalWeight]
    ring

/-- C4: a nonempty list of indicator results all classified
`strong_buy` aggregates to score 100, overall `strong_buy`,
`bullishCount = N`, `bearishCount = 0`, `neutralCount = 0`. -/
theorem aggregator_all_strong_buy (results : List IndicatorResult)
    (hne : results ≠ [])
    (hall : ∀ r ∈ results, r.signal = SignalStrength.strong_buy) :
    combineResults results =
      ⟨.strong_buy, 100, results.length, 0, 0, results⟩ := by
  have hlen : 0 < results.length := List.length_pos.mpr hne
  have hts := totalScore_all_strong_buy hall
  have hn : normalizedScore results = 100 := by
    rw [normalizedScore]
    have hpos : ((results.length : ℤ) * 2 : ℤ) > 0 := by positivity
    rw [if_pos hpos, hts]
    push_cast
    rw [div_mul_eq_mul_div, mul_comm]
    rw [mul_div_assoc]
    rw [mul_div_assoc]
    have : ((results.length : ℚ)) ≠ 0 := by positivity
    field_simp
    ring
  have hbull : bullishTally results = results.length := by
    rw [bullishTally]
    rw [List.filter_length_eq_length]
    intro r hr
    simp [hall r hr]
  have hbear : bearishTally results = 0 := by
    rw [bearishTally, List.length_eq_zero, List.filter_eq_nil_iff]
    intro r hr
    simp [hall r hr]
  have hneut : neutralTally results = 0 := by
    rw [neutralTally, List.length_eq_zero, List.filter_eq_nil_iff]
    intro r hr
    simp [hall r hr]
  rw [combineResults, hn, hbull, hbear, hneut]
  norm_num [classifyScore, jsRound, Int.floor_eq_iff]

/-- C4 (witness): three all-`strong_buy` results aggregate to
`(strong_buy, 100, 3, 0, 0)`. -/
theorem aggregator_all_strong_buy_witness :
    combineResults
        [⟨"a", 0, .strong_buy, ""⟩, ⟨"b", 1, .strong_buy, ""⟩,
         ⟨"c", 2, .strong_buy, ""⟩] =
      ⟨.strong_buy, 100,
        ([⟨"a", 0, .strong_buy, ""⟩, ⟨"b", 1, .strong_buy, ""⟩,
          ⟨"c", 2, .strong_buy, ""⟩] : List IndicatorResult).length, 0, 0,
        [⟨"a", 0, .strong_buy, ""⟩, ⟨"b", 1, .strong_buy, ""⟩,
         ⟨"c", 2, .strong_buy, ""⟩]⟩ :=
  aggregator_all_strong_buy _ (by simp) (by intro r hr; fin_cases hr <;> rfl)

/-- C6 (counterexample): a returned `CombinedSignal` can carry
`score = 20` with `overall = neutral` (and `score = −20` with
`overall = neutral`): the classification ladder reads the *unrounded*
normalized score (`≈ ±19.51` here), while the reported score rounds it
to `±20`.  This refutes `score=20 ⇒ buy` and `score=−20 ⇒ sell`. -/
theorem aggregator_boundary_cex :
    (combineResults boundaryResultsBuy).score = 20 ∧
    (combineResults boundaryResultsBuy).overall = SignalStrength.neutral ∧
    (combineResults boundaryResultsSell).score = -20 ∧
    (combineResults boundaryResultsSell).overall = SignalStrength.neutral := by
  have h1 : totalScore boundaryResultsBuy = 16 := by
    norm_num [boundaryResultsBuy, totalScore, signalWeight, List.map_replicate,
      List.sum_replicate]
  have h2 : totalScore boundaryResultsSell = -16 := by
    norm_num [boundaryResultsSell, totalScore, signalWeight, List.map_replicate,
      List.sum_replicate]
  have hl1 : boundaryResultsBuy.length = 41 := by
    norm_num [boundaryResultsBuy]
  have hl2 : boundaryResultsSell.length = 41 := by
    norm_num [boundaryResultsSell]
  have hn1 : normalizedScore boundaryResultsBuy = 800 / 41 := by
    rw [normalizedScore, hl1, h1]
    norm_num
  have hn2 : normalizedScore boundaryResultsSell = -800 / 41 := by
    rw [normalizedScore, hl2, h2]
    norm_num
  refine ⟨?_, ?_, ?_, ?_⟩
  · show jsRound (normalizedScore boundaryResultsBuy) = 20
    rw [hn1]
    norm_num [jsRound, Int.floor_eq_iff]
  · show classifyScore (normalizedScore boundaryResultsBuy) = SignalStrength.neutral
    rw [hn1]
    norm_num [classifyScore]
  · show jsRound (normalizedScore boundaryResultsSell) = -20
    rw [hn2]
    norm_num [jsRound, Int.floor_eq_iff]
  · show classifyScore (normalizedScore boundaryResultsSell) = SignalStrength.neutral
    rw [hn2]
    norm_num [classifyScore]

/-- C6 (amended): the `±50/±20` cutoffs are exact on the *unrounded*
normalized score (`20 ≤ n < 50 ⇒ buy`, `−50 < n ≤ −20 ⇒ sell`); on the
*reported* rounded score, `score = 19 ⇒ neutral` and `score = −19 ⇒
neutral` hold exactly, while `score = 20` entails `buy` or `neutral`
and `score = −20` entails `sell` or `neutral` (the neutral cases arise
only from rounding up across the cutoff). -/
theorem aggregator_boundary_amended (results : List IndicatorResult) :
    (20 ≤ normalizedScore results → normalizedScore results < 50 →
      (combineResults results).overall = SignalStrength.buy) ∧
    (normalizedScore results ≤ -20 → -50 < normalizedScore results →
      (combineResults results).overall = SignalStrength.sell) ∧
    ((combineResults results).score = 19 →
      (combineResults results).overall = SignalStrength.neutral) ∧
    ((combineResults results).score = -19 →
      (combineResults results).overall = SignalStrength.neutral) ∧
    ((combineResults results).score = 20 →
      (combineResults results).overall = SignalStrength.buy ∨
        (combineResults results).overall = SignalStrength.neutral) ∧
    ((combineResults results).score = -20 →
      (combineResults results).overall = SignalStrength.sell ∨
        (combineResults results).overall = SignalStrength.neutral) := by
  have hov : (combineResults results).overall = classifyScore (normalizedScore results) :=
    rfl
  have hsc : (combineResults results).score = jsRound (normalizedScore results) := rfl
  rw [hov, hsc]
  generalize normalizedScore results = n
  have hfl : ∀ z : ℤ, jsRound n = z → (z : ℚ) ≤ n + 1/2 ∧ n + 1/2 < z + 1 := by
    intro z hz
    rw [jsRound] at hz
    exact (Int.floor_eq_iff.mp hz : _)
  refine ⟨?_, ?_, ?_, ?_, ?_, ?_⟩
  · intro h1 h2
    rw [classifyScore]
    split_ifs <;> first | rfl | linarith
  · intro h1 h2
    rw [classifyScore]
    split_ifs <;> first | rfl | linarith
  · intro hz
    obtain ⟨ha, hb⟩ := hfl 19 hz
    rw [classifyScore]
    push_cast at ha hb
    split_ifs <;> first | rfl | linarith
  · intro hz
    obtain ⟨ha, hb⟩ := hfl (-19) hz
    rw [classifyScore]
    push_cast at ha hb
    split_ifs <;> first | rfl | linarith
  · intro hz
    obtain ⟨ha, hb⟩ := hfl 20 hz
    push_cast at ha hb
    rw [classifyScore]
    split_ifs <;> first | exact Or.inl rfl | exact Or.inr rfl | linarith
  · intro hz
    obtain ⟨ha, hb⟩ := hfl (-20) hz
    push_cast at ha hb
    rw [classifyScore]
    split_ifs <;> first | exact Or.inl rfl | exact Or.inr rfl | linarith

/-- C6 (witness): 19 `buy` with 31 `neutral` results give normalized
score exactly 19; the reported score is 19 and the overall is
`neutral`. -/
theorem aggregator_boundary_amended_witness :
    (combineResults (List.replicate 19 ⟨"b", 0, .buy, ""⟩ ++
        List.replicate 31 ⟨"n", 0, .neutral, ""⟩)).score = 19 ∧
    (combineResults (List.replicate 19 ⟨"b", 0, .buy, ""⟩ ++
        List.replicate 31 ⟨"n", 0, .neutral, ""⟩)).overall = SignalStrength.neutral := by
  have hsc : (combineResults (List.replicate 19 ⟨"b", 0, .buy, ""⟩ ++
      List.replicate 31 ⟨"n", 0, .neutral, ""⟩)).score = 19 := by
    show jsRound (normalizedScore _) = 19
    have : normalizedScore (List.replicate 19 ⟨"b", 0, .buy, ""⟩ ++
        List.replicate 31 (⟨"n", 0, .neutral, ""⟩ : IndicatorResult)) = 19 := by
      rw [normalizedScore]
      norm_num [totalScore, signalWeight, List.map_append, List.map_replicate,
        List.sum_append, List.sum_replicate]
    rw [this]
    norm_num [jsRound, Int.floor_eq_iff]
  exact ⟨hsc, (aggregator_boundary_amended _).2.2.1 hsc⟩

lemma zipWith_sub_pos_of_chain_lt : ∀ {l : List ℚ},
    List.Chain' (· < ·) l →
    ∀ c ∈ List.zipWith (· - ·) (l.drop 1) l, 0 < c
  | [], _, c, hc => by simp at hc
  | [_], _, c, hc => by simp at hc
  | a :: b :: t, h, c, hc => by
    rw [List.chain'_cons] at h
    simp only [List.drop_succ_cons, List.drop_zero, List.zipWith_cons_cons,
      List.mem_cons] at hc
    rcases hc with rfl | hc'
    · linarith [h.1]
    · have := zipWith_sub_pos_of_chain_lt h.2 c
      simp only [List.drop_succ_cons, List.drop_zero] at this
      exact this hc'

/-- C7 (counterexample): on the strictly increasing 15-price series
`1, 2, …, 15` the RSI value is `99.01`, not `100`: with zero losses the
code caps `RS` at 100, giving `RSI = 100 − 100/101 ≈ 99.0099` (reported
as `99.01` after two-decimal rounding).  The classification is still
`strong_sell`. -/
theorem rsi_all_gains_cex :
    (RSI_calculate [1, 2, 3, 4, 5, 6, 7, 8, 9, 10, 11, 12, 13, 14, 15]).value
        = 9901 / 100 ∧
      (9901 / 100 : ℚ) ≠ 100 := by
  constructor
  · norm_num [RSI_calculate, getSignal, round2, jsRound, Int.floor_eq_iff]
  · norm_num

/-- C7 (amended): on every strictly increasing price series of length
at least 15 the RSI indicator returns value `99.01` (exactly
`100 − 100/101` before the source's two-decimal rounding, since the
code returns `RS = 100` when the average loss is zero) and
classification `strong_sell`. -/
theorem rsi_all_gains_amended (prices : List ℚ) (hlen : 15 ≤ prices.length)
    (hmono : List.Chain' (· < ·) prices) :
    RSI_calculate prices =
      ⟨"RSI", 9901 / 100, .strong_sell,
        "Overbought - potential selling opportunity"⟩ := by
  have hg : ¬prices.length < 15 := by omega
  have hpos := zipWith_sub_pos_of_chain_lt hmono
  have hfil :
      (List.filter (fun c => decide (c < 0))
        ((List.zipWith (· - ·) (prices.drop 1) prices).drop
          ((List.zipWith (· - ·) (prices.drop 1) prices).length - 14))) = [] := by
    rw [List.filter_eq_nil_iff]
    intro a ha
    have : 0 < a := hpos a (List.drop_subset _ _ ha)
    simp only [decide_eq_true_eq]
    linarith
  rw [RSI_calculate, if_neg hg]
  simp only [hfil, List.map_nil, List.length_nil, lt_irrefl, if_false,
    reduceIte]
  norm_num [getSignal, round2, jsRound, Int.floor_eq_iff]

/-- C7 (witness): the amended theorem applied to `1, …, 15`. -/
theorem rsi_all_gains_amended_witness :
    RSI_calculate [1, 2, 3, 4, 5, 6, 7, 8, 9, 10, 11, 12, 13, 14, 15] =
      ⟨"RSI", 9901 / 100, .strong_sell,
        "Overbought - potential selling opportunity"⟩ :=
  rsi_all_gains_amended _ (by norm_num) (by norm_num [List.chain'_cons])

lemma getLast?_drop_of_lt {l : List ℚ} {n : ℕ} (h : n < l.length) :
    (l.drop n).getLast? = l.getLast? := by
  rw [List.getLast?_eq_getElem?, List.getLast?_eq_getElem?, List.getElem?_drop,
    List.length_drop]
  congr 1
  omega

/-- C10: on a price series whose last 14 values are all equal (a flat
window, so the range high equals the low), Stochastic %K returns value
50 with classification `neutral` and Williams %R returns value −50 with
classification `neutral` — neither divides by the zero range. -/
theorem flat_window_oscillators (fmt : NumFormat) (prices : List ℚ) (c : ℚ)
    (hlen : 14 ≤ prices.length)
    (hflat : ∀ x ∈ prices.drop (prices.length - 14), x = c) :
    Stochastic_calculate prices = ⟨"STOCH", 50, .neutral, "Normal range"⟩ ∧
    (WilliamsR_calculate fmt prices).value = -50 ∧
    (WilliamsR_calculate fmt prices).signal = SignalStrength.neutral := by
  have hg : ¬prices.length < 14 := by omega
  have hrecne : prices.drop (prices.length - 14) ≠ [] := by
    have : (prices.drop (prices.length - 14)).length = 14 := by
      rw [List.length_drop]
      omega
    intro hnil
    rw [hnil] at this
    simp at this
  have hmax : listMax (prices.drop (prices.length - 14)) = c :=
    listMax_all_eq hrecne hflat
  have hmin : listMin (prices.drop (prices.length - 14)) = c :=
    listMin_all_eq hrecne hflat
  have hlast : lastElem (prices.drop (prices.length - 14)) = c :=
    lastElem_all_eq hrecne hflat
  have hlastp : lastElem prices = c := by
    rw [lastElem, ← getLast?_drop_of_lt (show prices.length - 14 < prices.length by omega)]
    exact hlast
  refine ⟨?_, ?_, ?_⟩
  · rw [Stochastic_calculate, if_neg hg]
    simp only [hmax, hmin, hlast, if_pos rfl]
    norm_num [getSignal, round2, jsRound, Int.floor_eq_iff]
  · rw [WilliamsR_calculate]
    simp only [hg, if_false, reduceIte, hmax, hmin, hlastp, ne_eq,
      not_true_eq_false]
    norm_num [jsRound, Int.floor_eq_iff]
  · rw [WilliamsR_calculate]
    simp only [hg, if_false, reduceIte, hmax, hmin, hlastp, ne_eq,
      not_true_eq_false]
    norm_num

/-- C10 (witness): a constant 14-price series evaluates to the
degenerate-window results. -/
theorem flat_window_oscillators_witness :
    Stochastic_calculate (List.replicate 14 (7 : ℚ)) =
        ⟨"STOCH", 50, .neutral, "Normal range"⟩ ∧
      (WilliamsR_calculate fmtZero (List.replicate 14 (7 : ℚ))).value = -50 ∧
      (WilliamsR_calculate fmtZero (List.replicate 14 (7 : ℚ))).signal =
        SignalStrength.neutral :=
  flat_window_oscillators fmtZero (List.replicate 14 7) 7 (by norm_num)
    (by intro x hx; exact List.eq_of_mem_replicate (List.drop_subset _ _ hx))

lemma metricLe_eq (m : Option ℚ) (th : ℚ) :
    metricLe m th = m.elim false (fun v => decide (v ≤ th)) := by
  cases m <;> rfl

lemma metricGe_eq (m : Option ℚ) (th : ℚ) :
    metricGe m th = m.elim false (fun v => decide (v ≥ th)) := by
  cases m <;> rfl

lemma guard_chain {flag : Bool} {m : Option ℚ} {cond : ℚ → Bool}
    {outcome : ℚ → AlertCheck} {t : AlertType} {rest : Option AlertCheck}
    {rules : List (Bool × AlertType)}
    (hout : ∀ v, ((outcome v).shouldSend, (outcome v).alertType) = (true, t))
    (hrest : ((rest.getD ⟨false, .INFO, "No extreme conditions"⟩).shouldSend,
        (rest.getD ⟨false, .INFO, "No extreme conditions"⟩).alertType) =
        firstMatch rules) :
    (((alertGuard flag m cond outcome <|> rest).getD
        ⟨false, .INFO, "No extreme conditions"⟩).shouldSend,
      ((alertGuard flag m cond outcome <|> rest).getD
        ⟨false, .INFO, "No extreme conditions"⟩).alertType) =
      firstMatch ((flag && m.elim false cond, t) :: rules) := by
  cases m with
  | none =>
    simpa [alertGuard, firstMatch] using hrest
  | some v =>
    by_cases h : flag = true ∧ cond v = true
    · have hb : (flag && cond v) = true := by simp [h.1, h.2]
      simp only [alertGuard, if_pos h, Option.some_orElse, Option.getD_some,
        Option.elim_some, firstMatch, hb, if_true]
      exact hout v
    · have hb : ¬((flag && cond v) = true) := by
        simp only [Bool.and_eq_true]
        exact h
      simp only [alertGuard, if_neg h, Option.none_orElse, Option.elim_some,
        firstMatch, if_neg hb]
      exact hrest

lemma guard_last {flag : Bool} {m : Option ℚ} {cond : ℚ → Bool}
    {outcome : ℚ → AlertCheck} {t : AlertType}
    (hout : ∀ v, ((outcome v).shouldSend, (outcome v).alertType) = (true, t)) :
    (((alertGuard flag m cond outcome).getD
        ⟨false, .INFO, "No extreme conditions"⟩).shouldSend,
      ((alertGuard flag m cond outcome).getD
        ⟨false, .INFO, "No extreme conditions"⟩).alertType) =
      firstMatch [(flag && m.elim false cond, t)] := by
  have h := @guard_chain flag m cond outcome t none [] hout rfl
  rw [Option.orElse_none] at h
  exact h

/-- C1 (counterexample): the claim covers both alert evaluators, but in
`shouldSendAlert` (the local `telegram-bot.ts` variant) a high funding
rate yields type `SELL`, not the claimed `CAUTION`: with only
`fundingRate = 0.2` present under the default config, the first (and
only) matching rule fires with `SELL`. -/
theorem alert_rules_cex :
    (shouldSendAlert fmtZero DEFAULT_CONFIG ⟨none, some (2/10), none, none⟩).shouldSend
        = true ∧
      (shouldSendAlert fmtZero DEFAULT_CONFIG ⟨none, some (2/10), none, none⟩).alertType
        = AlertType.SELL ∧
      AlertType.SELL ≠ AlertType.CAUTION := by
  refine ⟨?_, ?_, by decide⟩ <;>
    norm_num [shouldSendAlert, alertGuard, DEFAULT_CONFIG]

/-- C1 (amended): `checkAlertConditions` evaluates exactly the spec's
ordered first-match rule list — fear/greed (BUY low / SELL high),
funding rate (BUY low / CAUTION high), long/short (BUY low / CAUTION
high), price change (BUY on drop / CAUTION on a 1.5×-threshold rally) —
with only the first matching rule determining `(shouldSend, alertType)`
and `(false, INFO)` when none match.  The `shouldSendAlert` variant
evaluates its own hardcoded rule list in the same first-match fashion
(behind its `enabled` gate), but its high-funding outcome is `SELL`
rather than `CAUTION`. -/
theorem alert_rules_first_match :
    (∀ (fmt : NumFormat) (config : CheckAlertConfig) (d : AlertData),
      ((checkAlertConditions fmt config d).shouldSend,
        (checkAlertConditions fmt config d).alertType) =
        firstMatch (specAlertRules config d)) ∧
    (∀ (fmt : NumFormat) (config : AlertConfigLocal) (d : AlertData),
      ((shouldSendAlert fmt config d).shouldSend,
        (shouldSendAlert fmt config d).alertType) =
        if config.enabled then firstMatch (localAlertRules config d)
        else (false, AlertType.INFO)) := by
  constructor
  · intro fmt config d
    rw [checkAlertConditions, specAlertRules,
      metricLe_eq, metricGe_eq, metricLe_eq, metricGe_eq,
      metricLe_eq, metricGe_eq, metricLe_eq, metricGe_eq]
    apply guard_chain (fun _ => rfl)
    apply guard_chain (fun _ => rfl)
    apply guard_chain (fun _ => rfl)
    apply guard_chain (fun _ => rfl)
    apply guard_chain (fun _ => rfl)
    apply guard_chain (fun _ => rfl)
    apply guard_chain (fun _ => rfl)
    exact guard_last (fun _ => rfl)
  · intro fmt config d
    by_cases he : config.enabled = true
    · rw [shouldSendAlert, if_neg (by simp [he]), if_pos he, localAlertRules,
        metricLe_eq, metricGe_eq, metricLe_eq, metricGe_eq,
        metricLe_eq, metricGe_eq, metricLe_eq, metricGe_eq]
      apply guard_chain (fun _ => rfl)
      apply guard_chain (fun _ => rfl)
      apply guard_chain (fun _ => rfl)
      apply guard_chain (fun _ => rfl)
      apply guard_chain (fun _ => rfl)
      apply guard_chain (fun _ => rfl)
      apply guard_chain (fun _ => rfl)
      exact guard_last (fun _ => rfl)
    · rw [shouldSendAlert, if_pos he, if_neg he]

instance : Std.Antisymm (fun (x1 x2 : ℚ) => x1 ≤ x2) :=
  ⟨@fun _ _ h1 h2 => le_antisymm h1 h2⟩

lemma le_max?_of_mem_q {l : List ℚ} {a T : ℚ} (ha : a ∈ l)
    (hT : l.max? = some T) : a ≤ T := by
  have h := (List.max?_eq_some_iff (fun a => le_refl a)
    (fun a b => max_choice a b) (fun a b c => max_le_iff)).mp hT
  exact h.2 a ha

/-- C2: rate limiting is measured against the last successfully
recorded alert.  Under an enabled config with a chat id: (a) whenever
the store's last successful-delivery timestamp is within the cooldown
window, the evaluation is suppressed as rate-limited, whatever the
snapshot; and (b) two evaluations of an identical matching snapshot
within one cooldown window fire on the first (delivery succeeding) and
are suppressed on the second, solely by the elapsed-time check. -/
theorem alert_cooldown (fmt : NumFormat) (config : AlertConfigDb)
    (envChatId : Option String) (data : AlertData) (btcPrice : Option ℚ)
    (ai : Option String) (d1 d2 : DeliveryResult) (t0 t1 : ℚ)
    (history : List AlertHistoryRow)
    (hen : config.telegram_enabled = true)
    (hchat : (config.telegram_chat_id <|> envChatId).isSome = true)
    (hcan : canSendAlert "default" config.min_minutes_between_alerts t0 history
      = true)
    (hmatch : (checkAlertConditions fmt config.toCheckConfig data).shouldSend
      = true)
    (hd1 : d1.success = true)
    (horder : t0 ≤ t1)
    (hwin : (t1 - t0) / (1000 * 60) < config.min_minutes_between_alerts) :
    (∀ (d : DeliveryResult) (now : ℚ) (h2 : List AlertHistoryRow) (tlast : ℚ),
      getLastAlertTime "default" h2 = some tlast →
      (now - tlast) / (1000 * 60) < config.min_minutes_between_alerts →
      (alertCheckCron fmt config envChatId data btcPrice ai d now h2).1 =
        CronOutcome.rateLimited) ∧
    (alertCheckCron fmt config envChatId data btcPrice ai d1 t0 history).1.fires
      = true ∧
    (alertCheckCron fmt config envChatId data btcPrice ai d2 t1
        (alertCheckCron fmt config envChatId data btcPrice ai d1 t0 history).2).1
      = CronOutcome.rateLimited := by
  obtain ⟨cid, hcid⟩ := Option.isSome_iff_exists.mp hchat
  have hsupp : ∀ (d : DeliveryResult) (now : ℚ) (h2 : List AlertHistoryRow)
      (tlast : ℚ), getLastAlertTime "default" h2 = some tlast →
      (now - tlast) / (1000 * 60) < config.min_minutes_between_alerts →
      (alertCheckCron fmt config envChatId data btcPrice ai d now h2).1 =
        CronOutcome.rateLimited := by
    intro d now h2 tlast hlast hlt
    have hcs : canSendAlert "default" config.min_minutes_between_alerts now h2
        = false := by
      rw [canSendAlert, hlast]
      simpa using not_le.mpr hlt
    rw [alertCheckCron, if_neg (by simp [hen]), hcid]
    simp only [hcs, Bool.not_false, if_pos, Bool.false_eq_true,
      not_false_eq_true, reduceIte]
  have hstep1 :
      alertCheckCron fmt config envChatId data btcPrice ai d1 t0 history =
      (CronOutcome.fired (checkAlertConditions fmt config.toCheckConfig data)
        true,
       history ++
        [⟨"default",
          (checkAlertConditions fmt config.toCheckConfig data).alertType,
          (checkAlertConditions fmt config.toCheckConfig data).reason,
          data.fearGreed, data.fundingRate, data.longShort,
          btcPrice, data.priceChange24h, ai,
          (if config.ai_analysis_enabled then some config.ai_model else none),
          true, d1.messageId, d1.error, t0⟩]) := by
    rw [alertCheckCron, if_neg (by simp [hen]), hcid]
    simp [hcan, hmatch, hd1]
  refine ⟨hsupp, ?_, ?_⟩
  · rw [hstep1]
    rfl
  · rw [hstep1]
    set row : AlertHistoryRow :=
      ⟨"default",
        (checkAlertConditions fmt config.toCheckConfig data).alertType,
        (checkAlertConditions fmt config.toCheckConfig data).reason,
        data.fearGreed, data.fundingRate, data.longShort,
        btcPrice, data.priceChange24h, ai,
        (if config.ai_analysis_enabled then some config.ai_model else none),
        true, d1.messageId, d1.error, t0⟩ with hrow
    have hpass : (fun r : AlertHistoryRow =>
        decide (r.user_id = "default" ∧ r.telegram_sent = true)) row = true := by
      simp [hrow]
    have hsome : ((history ++ [row]).filter (fun r =>
        decide (r.user_id = "default" ∧ r.telegram_sent = true))).length ≠ 0 := by
      rw [List.filter_append]
      simp [hpass]
    obtain ⟨tlast, hlast⟩ : ∃ tlast,
        getLastAlertTime "default" (history ++ [row]) = some tlast := by
      rw [getLastAlertTime]
      apply Option.isSome_iff_exists.mp
      apply List.isSome_max?_of_mem
      show row.created_at ∈ _
      apply List.mem_map_of_mem
      rw [List.mem_filter]
      exact ⟨by simp, hpass⟩
    have ht0le : t0 ≤ tlast := by
      have hmem : row.created_at ∈ ((history ++ [row]).filter (fun r =>
          decide (r.user_id = "default" ∧ r.telegram_sent = true))).map
          (fun r => r.created_at) := by
        apply List.mem_map_of_mem
        rw [List.mem_filter]
        exact ⟨by simp, hpass⟩
      exact le_max?_of_mem_q hmem hlast
    apply hsupp d2 t1 (history ++ [row]) tlast hlast
    calc (t1 - tlast) / (1000 * 60) ≤ (t1 - t0) / (1000 * 60) :=
          (div_le_div_iff_of_pos_right (by norm_num)).mpr (by linarith)
      _ < config.min_minutes_between_alerts := hwin

/-- C2 (witness): under the enabled witness config with empty history,
an extreme-fear snapshot fires at time 0 (delivery succeeding) and the
identical evaluation one minute later is rate-limited. -/
theorem alert_cooldown_witness :
    (alertCheckCron fmtZero witnessConfigDb none witnessData none none
        ⟨true, none, none⟩ 0 []).1.fires = true ∧
    (alertCheckCron fmtZero witnessConfigDb none witnessData none none
        ⟨true, none, none⟩ 60000
        (alertCheckCron fmtZero witnessConfigDb none witnessData none none
          ⟨true, none, none⟩ 0 []).2).1 = CronOutcome.rateLimited := by
  have h := alert_cooldown fmtZero witnessConfigDb none witnessData none none
    ⟨true, none, none⟩ ⟨true, none, none⟩ 0 60000 []
    rfl rfl
    (by norm_num [canSendAlert, getLastAlertTime])
    (by norm_num [checkAlertConditions, alertGuard, witnessConfigDb,
      AlertConfigDb.toCheckConfig, witnessData])
    rfl
    (by norm_num)
    (by norm_num [witnessConfigDb])
  exact ⟨h.2.1, h.2.2⟩

/-- C3 (counterexample): in the in-memory pipeline (`alert-storage.ts`
route), a fired alert whose Telegram delivery fails is *not* appended to
history: with extreme fear matching and `sent = false`, the outcome is
`fired` yet the store state — history included — is unchanged.  A
delivery failure therefore does prevent the event from being
persisted in that pipeline. -/
theorem alert_history_cex :
    (alertCheckCronMem fmtZero DEFAULT_CONFIG (some "chat") witnessData false
        3600000 ⟨0, []⟩).1.fires = true ∧
    (alertCheckCronMem fmtZero DEFAULT_CONFIG (some "chat") witnessData false
        3600000 ⟨0, []⟩).2 = ⟨0, []⟩ := by
  constructor <;>
    norm_num [alertCheckCronMem, canSendAlertMem, shouldSendAlert, alertGuard,
      DEFAULT_CONFIG, witnessData, CronOutcomeMem.fires]

/-- C3 (amended): the two pipelines persist differently.  In the
Supabase pipeline every fired alert is appended to history exactly once
with its delivery outcome (`telegram_sent` mirrors the delivery success,
`telegram_error` the error string), whether delivery succeeded or
failed.  In the in-memory pipeline a failed delivery leaves the store
untouched (no history record at all), and only a successful delivery
appends the record. -/
theorem alert_history_amended :
    (∀ (fmt : NumFormat) (config : AlertConfigDb) (envChatId : Option String)
      (data : AlertData) (btcPrice : Option ℚ) (ai : Option String)
      (delivery : DeliveryResult) (now : ℚ) (history : List AlertHistoryRow),
      config.telegram_enabled = true →
      (config.telegram_chat_id <|> envChatId).isSome = true →
      canSendAlert "default" config.min_minutes_between_alerts now history
        = true →
      (checkAlertConditions fmt config.toCheckConfig data).shouldSend = true →
      alertCheckCron fmt config envChatId data btcPrice ai delivery now history
        = (CronOutcome.fired
            (checkAlertConditions fmt config.toCheckConfig data)
            delivery.success,
          history ++
            [⟨"default",
              (checkAlertConditions fmt config.toCheckConfig data).alertType,
              (checkAlertConditions fmt config.toCheckConfig data).reason,
              data.fearGreed, data.fundingRate, data.longShort,
              btcPrice, data.priceChange24h, ai,
              (if config.ai_analysis_enabled then some config.ai_model
               else none),
              delivery.success, delivery.messageId, delivery.error, now⟩])) ∧
    (∀ (fmt : NumFormat) (config : AlertConfigLocal) (envChatId : Option String)
      (data : AlertData) (now : ℚ) (st : MemAlertState),
      (alertCheckCronMem fmt config envChatId data false now st).2 = st) := by
  constructor
  · intro fmt config envChatId data btcPrice ai delivery now history
      hen hchat hcan hmatch
    obtain ⟨cid, hcid⟩ := Option.isSome_iff_exists.mp hchat
    rw [alertCheckCron, if_neg (by simp [hen]), hcid]
    simp [hcan, hmatch]
  · intro fmt config envChatId data now st
    unfold alertCheckCronMem
    by_cases he : config.enabled = true
    · cases envChatId with
      | none => simp [he]
      | some c =>
        simp only [he, Bool.not_true, Bool.false_eq_true, not_false_eq_true,
          reduceIte]
        split_ifs <;> rfl
    · simp [he]

/-- C3 (witness): the Supabase pipeline appends the failed-delivery
record (`telegram_sent = false` with the error string) for a fired
extreme-fear alert on empty history. -/
theorem alert_history_amended_witness :
    alertCheckCron fmtZero witnessConfigDb none witnessData none none
        ⟨false, none, some "timeout"⟩ 0 []
      = (CronOutcome.fired
          (checkAlertConditions fmtZero witnessConfigDb.toCheckConfig
            witnessData) false,
        [⟨"default",
          (checkAlertConditions fmtZero witnessConfigDb.toCheckConfig
            witnessData).alertType,
          (checkAlertConditions fmtZero witnessConfigDb.toCheckConfig
            witnessData).reason,
          witnessData.fearGreed, witnessData.fundingRate,
          witnessData.longShort, none, witnessData.priceChange24h, none,
          none, false, none, some "timeout", 0⟩]) := by
  have h := (alert_history_amended.1) fmtZero witnessConfigDb none witnessData
    none none ⟨false, none, some "timeout"⟩ 0 []
    rfl rfl
    (by norm_num [canSendAlert, getLastAlertTime])
    (by norm_num [checkAlertConditions, alertGuard, witnessConfigDb,
      AlertConfigDb.toCheckConfig, witnessData])
  rw [h]
  norm_num [witnessConfigDb]

/-- C8 (counterexample): `VolumeAnalysis` is in the library and answers
`neutral` below its 20-entry minimum, but its insufficiency description
is `"Volume data unavailable"`, not one stating `"Insufficient data"`
as every other indicator (and the claim) has it. -/
theorem indicator_insufficient_cex :
    VolumeAnalysis ∈ ALL_INDICATORS (fun _ => 0) fmtZero ∧
    ([] : List ℚ).length < minHistory VolumeAnalysis.id ∧
    (VolumeAnalysis.calculate [] none).signal = SignalStrength.neutral ∧
    (VolumeAnalysis.calculate [] none).description = "Volume data unavailable" ∧
    "Volume data unavailable" ≠ "Insufficient data" := by
  refine ⟨by simp [ALL_INDICATORS], by norm_num [VolumeAnalysis, minHistory],
    rfl, rfl, by decide⟩

/-- C8 (amended): every indicator in the library, given a price series
shorter than its documented minimum (with the documented parallel
equal-length volume series, or none), returns classification `neutral`;
the description is `"Insufficient data"` for every indicator except
`VolumeAnalysis`, whose insufficiency description reads
`"Volume data unavailable"`.  (Totality — "never raises" — holds by
construction of the embedding.) -/
theorem indicator_insufficient_amended (sq : ℚ → ℚ) (fmt : NumFormat)
    (ind : Indicator) (hmem : ind ∈ ALL_INDICATORS sq fmt)
    (prices : List ℚ) (volumes : Option (List ℚ))
    (hvol : volumes = none ∨ ∃ v, volumes = some v ∧ v.length = prices.length)
    (hshort : prices.length < minHistory ind.id) :
    (ind.calculate prices volumes).signal = SignalStrength.neutral ∧
      ((ind.calculate prices volumes).description = "Insufficient data" ∨
        (ind.id = "volume" ∧
          (ind.calculate prices volumes).description
            = "Volume data unavailable")) := by
  simp only [ALL_INDICATORS, List.mem_cons, List.not_mem_nil, or_false]
    at hmem
  rcases hmem with rfl | rfl | rfl | rfl | rfl | rfl | rfl | rfl | rfl | rfl
    | rfl | rfl | rfl | rfl | rfl | rfl | rfl
  · have hs : prices.length < 15 := by simpa [RSI, minHistory] using hshort
    simp [RSI, RSI_calculate, hs]
  · have hs : prices.length < 26 := by simpa [MACD, minHistory] using hshort
    simp [MACD, MACD_calculate, hs]
  · have hs : prices.length < 20 := by
      simpa [BollingerBands, minHistory] using hshort
    simp [BollingerBands, BollingerBands_calculate, hs]
  · have hs : prices.length < 21 := by
      simpa [SMACrossover, minHistory] using hshort
    have h200 : prices.length < 200 := by omega
    have hguard : prices.length < min 30 (4 * prices.length / 5) + 5 := by
      omega
    simp [SMACrossover, SMACrossover_calculate, h200, hguard]
  · have hs : prices.length < 20 := by
      simpa [VolumeAnalysis, minHistory] using hshort
    rcases hvol with rfl | ⟨v, rfl, hvlen⟩
    · simp [VolumeAnalysis, VolumeAnalysis_calculate]
    · have hv : v.length < 20 := by omega
      simp [VolumeAnalysis, VolumeAnalysis_calculate, hv]
  · have hs : prices.length < 10 := by
      simpa [Momentum, minHistory] using hshort
    simp [Momentum, Momentum_calculate, hs]
  · have hs : prices.length < 14 := by
      simpa [Stochastic, minHistory] using hshort
    simp [Stochastic, Stochastic_calculate, hs]
  · have hs : prices.length < 15 := by simpa [ATR, minHistory] using hshort
    simp [ATR, ATR_calculate, hs]
  · have hs : prices.length < 39 := by simpa [DMI, minHistory] using hshort
    simp [DMI, DMI_calculate, hs]
  · have hs : prices.length < 74 := by simpa [STC, minHistory] using hshort
    have hguard : prices.length < 60 + 14 := by omega
    simp [STC, STC_calculate, hguard]
  · have hs : prices.length < 26 := by simpa [Aroon, minHistory] using hshort
    have hguard : prices.length < 25 + 1 := by omega
    simp [Aroon, Aroon_calculate, hguard]
  · have hs : prices.length < 15 := by
      simpa [SuperTrend, minHistory] using hshort
    have hguard : prices.length < 10 + 5 := by omega
    simp [SuperTrend, SuperTrend_calculate, hguard]
  · have hs : prices.length < 25 := by
      simpa [EMACrossover, minHistory] using hshort
    simp [EMACrossover, EMACrossover_calculate, hs]
  · have hs : prices.length < 14 := by
      simpa [WilliamsR, minHistory] using hshort
    simp [WilliamsR, WilliamsR_calculate, hs]
  · have hs : prices.length < 20 := by simpa [CCI, minHistory] using hshort
    simp [CCI, CCI_calculate, hs]
  · have hs : prices.length < 13 := by simpa [ROC, minHistory] using hshort
    have hguard : prices.length < 12 + 1 := by omega
    simp [ROC, ROC_calculate, hguard]
  · have hs : prices.length < 20 := by simpa [VWAPDeviation, minHistory] using hshort
    simp [VWAPDeviation, VWAPDeviation_calculate, hs]

/-- C8 (witness): the RSI indicator on an empty series under the
documented conditions. -/
theorem indicator_insufficient_amended_witness :
    (RSI.calculate [] none).signal = SignalStrength.neutral ∧
      ((RSI.calculate [] none).description = "Insufficient data" ∨
        (RSI.id = "volume" ∧
          (RSI.calculate [] none).description = "Volume data unavailable")) :=
  indicator_insufficient_amended (fun _ => 0) fmtZero RSI
    (by simp [ALL_INDICATORS]) [] none (Or.inl rfl)
    (by norm_num [RSI, minHistory])

end TradingSignals
